import Mathlib

/-!
Verification development for the `EnergyDataManager` class of WattsAppV1
(file `src/js/data.js`).  The JavaScript class is shallowly embedded:

* numbers are modelled by real numbers `ℝ` (stored fields produced by
  `Math.round` are modelled by `ℤ`, since `Math.round` yields integers);
* `Math.random()` draws are explicit parameters of the operations;
* wall-clock instants are modelled by `ℤ` (milliseconds, as JavaScript
  `Date` subtraction produces);
* `Date#toLocaleTimeString` / `toLocaleDateString` (locale dependent) and
  `new Date(string)` label parsing (implementation defined for non-ISO
  strings) are abstract parameters `fmt` and `parse`; a failed parse
  (Invalid Date, whose comparisons are all false, like NaN) is `none`;
* the statistics of `getReportData`, where JavaScript division can produce
  `NaN` and `Infinity`, use an explicit `JSVal` type mirroring the special
  values of IEEE division by zero.

Each definition keeps the name of the corresponding JavaScript member.
-/

namespace WattsApp

/-- A device of a household (`data.js` household data, lines 49-78). -/
structure Device where
  name : String
  power : ℝ
  status : String
  priority : String

/-- A household (`data.js` lines 43-80). -/
structure Household where
  id : String
  name : String
  status : String
  currentUsage : ℝ
  devices : List Device

/-- One historical series: three parallel arrays (`data.js` lines 36-40). -/
structure Series where
  labels : List String
  generation : List ℝ
  consumption : List ℝ

/-- The three tracked period series of `this.historicalData`. -/
structure HistoricalData where
  h24 : Series
  h7 : Series
  h30 : Series

/-- Model of `currentData.generation` block. -/
structure GenerationData where
  solar : ℝ
  wind : ℝ
  total : ℝ

/-- Model of `currentData.consumption` block. -/
structure ConsumptionData where
  households : ℝ
  total : ℝ

/-- Model of `currentData.battery` block; `percentage` is stored through `Math.round`. -/
structure BatteryData where
  percentage : ℤ
  health : String
  voltage : ℝ
  temperature : ℝ

/-- Model of `currentData.grid` block; `load` is stored through `Math.round`. -/
structure GridData where
  status : String
  load : ℤ

/-- Model of `currentData.dailySummary` block. -/
structure DailySummary where
  totalGenerated : ℝ
  totalConsumed : ℝ
  efficiency : ℤ

/-- A full snapshot (`this.currentData`, `data.js` lines 8-34). -/
structure Snapshot where
  timestamp : ℤ
  generation : GenerationData
  consumption : ConsumptionData
  battery : BatteryData
  grid : GridData
  dailySummary : DailySummary

/-- An alert record (`data.js` lines 414-439, 450-478). -/
structure Alert where
  id : ℤ
  type : String
  title : String
  message : String
  timestamp : ℤ
  dismissed : Bool
deriving DecidableEq

/-- Model of `controlsData.systemControls` (`data.js` lines 85-89). -/
structure SystemControls where
  gridConnection : Bool
  autoLoadBalancing : Bool
  batteryCharging : Bool

/-- Model of `controlsData.energyLimits` (`data.js` lines 90-94). -/
structure EnergyLimits where
  maxGridImport : ℝ
  batteryDischargeLimit : ℝ
  loadPriority : String

/-- Model of `this.controlsData` (`data.js` lines 84-95). -/
structure ControlsData where
  systemControls : SystemControls
  energyLimits : EnergyLimits

/-- A schedule record (`data.js` lines 97-114). -/
structure Schedule where
  id : ℤ
  name : String
  active : Bool
  time : String
  action : String
  conditions : String

/-- The whole mutable state of the `EnergyDataManager` instance.
`households` is the `households` array of `this.householdData`. -/
structure ManagerState where
  currentData : Snapshot
  historicalData : HistoricalData
  households : List Household
  alertsData : List Alert
  controlsData : ControlsData
  schedules : List Schedule

/-! ## toggleDevice (`data.js` lines 552-562)

`device.status = device.status === 'on' ? 'off' : 'on'`, applied to the
first device (by `Array.find`) whose name matches, inside the first
household whose id matches. -/

/-- The status flip of line 557. -/
def toggleStatus (s : String) : String :=
  if s = "on" then "off" else "on"

/-- Flip the first device with the given name; `none` when absent
(the inner `find` of `toggleDevice`). -/
def toggleDeviceList : List Device → String → Option (List Device)
  | [], _ => none
  | d :: rest, deviceName =>
    if d.name = deviceName then
      some ({ d with status := toggleStatus d.status } :: rest)
    else
      match toggleDeviceList rest deviceName with
      | none => none
      | some rest' => some (d :: rest')

/-- Locate the first household with the given id and toggle the named
device inside it; the search does not continue past the first id match,
exactly as `Array.find` does. -/
def toggleHouseholds : List Household → String → String → Option (List Household)
  | [], _, _ => none
  | h :: rest, householdId, deviceName =>
    if h.id = householdId then
      match toggleDeviceList h.devices deviceName with
      | none => none
      | some ds => some ({ h with devices := ds } :: rest)
    else
      match toggleHouseholds rest householdId deviceName with
      | none => none
      | some rest' => some (h :: rest')

/-- Model of `toggleDevice(householdId, deviceName)`: boolean success flag plus the
state after the call (`data.js` lines 552-562). -/
def toggleDevice (st : ManagerState) (householdId deviceName : String) :
    Bool × ManagerState :=
  match toggleHouseholds st.households householdId deviceName with
  | none => (false, st)
  | some hs => (true, { st with households := hs })

/-- A sequence of `toggleDevice` calls, each discarding the boolean flag. -/
def applyToggles (st : ManagerState) (calls : List (String × String)) : ManagerState :=
  calls.foldl (fun s c => (toggleDevice s c.1 c.2).2) st

/-- The status of the device at list position `j` of the household at list
position `i`. -/
def statusAt (st : ManagerState) (i j : ℕ) : Option String :=
  (st.households[i]?).bind fun h => (h.devices[j]?).map fun d => d.status

/-! ## Rounding helpers

`Math.round(x * 100) / 100` and `Math.round(x * 10) / 10`; JavaScript
`Math.round` rounds half towards positive infinity, exactly like
Mathlib's `round` (`round x = ⌊x + 1/2⌋`). -/

/-- Model of `Math.round(x * 100) / 100`. -/
noncomputable def round2 (x : ℝ) : ℝ := (round (x * 100) : ℝ) / 100

/-- Model of `Math.round(x * 10) / 10`. -/
noncomputable def round1 (x : ℝ) : ℝ := (round (x * 10) : ℝ) / 10

/-! ## Generation model (`generateCurrentData`, `data.js` lines 209-291) -/

/-- Solar output for the hour of day, with one `Math.random()` draw `r`
(`data.js` lines 215-219; the same formula is used at lines 147-151). -/
noncomputable def solarGeneration (hour : ℤ) (r : ℝ) : ℝ :=
  if 6 ≤ hour ∧ hour ≤ 18 then
    Real.sin (((hour : ℝ) - 6) / 12 * Real.pi) * (8 + r * 4)
  else 0

/-- Wind output, with one `Math.random()` draw `r` (`data.js` line 222). -/
noncomputable def windGeneration (r : ℝ) : ℝ := 3 + r * 6

/-- Per-device power rule of `updateHouseholdConsumption`
(`data.js` lines 300-330), with one `Math.random()` draw `r`. -/
noncomputable def devicePower (hour : ℤ) (name status : String) (r : ℝ) : ℝ :=
  if status = "on" then
    if name = "HVAC" ∨ name = "Heat Pump" then
      let base := 2.5 + r * 2
      if hour ≥ 22 ∨ hour ≤ 6 then base * 0.7 else base
    else if name = "Water Heater" then
      if (hour ≥ 6 ∧ hour ≤ 8) ∨ (hour ≥ 18 ∧ hour ≤ 20) then 3 + r * 1 else 0.5
    else if name = "Electric Vehicle" then
      if (hour ≥ 22 ∨ hour ≤ 6) ∧ status = "on" then 6 + r * 2 else 0
    else if name = "Lighting" then
      if hour ≤ 7 ∨ hour ≥ 18 then 0.5 + r * 0.3 else 0.1
    else if name = "Pool Pump" then
      if hour ≥ 10 ∧ hour ≤ 16 then 1.5 else 0
    else 0.5 + r * 1
  else if status = "auto" then
    if hour ≤ 7 ∨ hour ≥ 18 then 0.3 else 0
  else 0

/-- The running `totalUsage` accumulation of the `forEach` over devices. -/
def sumPower (ds : List Device) : ℝ :=
  ds.foldl (fun t d => t + d.power) 0

/-- Recompute the power of every device of one household;
`r j` is the `Math.random()` draw consumed for the device at position `j`. -/
noncomputable def updateDevices (hour : ℤ) (r : ℕ → ℝ) : ℕ → List Device → List Device
  | _, [] => []
  | j, d :: rest =>
    { d with power := devicePower hour d.name d.status (r j) } ::
      updateDevices hour r (j + 1) rest

/-- Model of `updateHouseholdConsumption(hour, day)` (`data.js` lines 296-337):
recompute all device powers and each `currentUsage`; `day` is accepted but,
as in the source, unused.  `rDev i j` is the draw for device `j` of
household `i`. -/
noncomputable def updateHouseholdConsumption (hour day : ℤ) (rDev : ℕ → ℕ → ℝ) :
    ℕ → List Household → List Household
  | _, [] => []
  | i, h :: rest =>
    let ds := updateDevices hour (rDev i) 0 h.devices
    { h with devices := ds, currentUsage := round2 (sumPower ds) } ::
      updateHouseholdConsumption hour day rDev (i + 1) rest

/-- Model of `getTotalHouseholdConsumption()` (`data.js` lines 342-346). -/
def getTotalHouseholdConsumption (hs : List Household) : ℝ :=
  hs.foldl (fun t h => t + h.currentUsage) 0

/-- The inputs of one `generateCurrentData()` call that the JavaScript
obtains from the environment: the wall clock (`now`, its hour of day and
day of week) and every `Math.random()` draw. -/
structure GenInput where
  now : ℤ
  hour : ℤ
  day : ℤ
  rSolar : ℝ
  rWind : ℝ
  rTemp : ℝ
  rDev : ℕ → ℕ → ℝ

/-- The households after the `updateHouseholdConsumption` call. -/
noncomputable def updatedHouseholds (st : ManagerState) (inp : GenInput) : List Household :=
  updateHouseholdConsumption inp.hour inp.day inp.rDev 0 st.households

/-- Model of `totalGeneration = solar + wind` (`data.js` line 227). -/
noncomputable def totalGenerationOf (inp : GenInput) : ℝ :=
  solarGeneration inp.hour inp.rSolar + windGeneration inp.rWind

/-- Model of `totalConsumption` (`data.js` line 228). -/
noncomputable def totalConsumptionOf (st : ManagerState) (inp : GenInput) : ℝ :=
  getTotalHouseholdConsumption (updatedHouseholds st inp)

/-- Model of `netEnergy` (`data.js` line 231). -/
noncomputable def netEnergyOf (st : ManagerState) (inp : GenInput) : ℝ :=
  totalGenerationOf inp - totalConsumptionOf st inp

/-- The working (unrounded) battery percentage after the charge or
discharge update with clamping (`data.js` lines 232-240). -/
noncomputable def batteryRawOf (st : ManagerState) (inp : GenInput) : ℝ :=
  let bp : ℝ := (st.currentData.battery.percentage : ℝ)
  let net := netEnergyOf st inp
  if net > 0 then min 100 (bp + net * 0.1)
  else if net < 0 then max 0 (bp + net * 0.1)
  else bp

/-- Model of `gridStatus` (`data.js` lines 243-244): computed from the unrounded
working battery percentage. -/
noncomputable def gridStatusOf (st : ManagerState) (inp : GenInput) : String :=
  if batteryRawOf st inp < st.controlsData.energyLimits.batteryDischargeLimit ∨
      totalConsumptionOf st inp > totalGenerationOf inp + 2 then "ON" else "OFF"

/-- Model of `gridLoad` (`data.js` line 245). -/
noncomputable def gridLoadOf (st : ManagerState) (inp : GenInput) : ℝ :=
  if gridStatusOf st inp = "ON" then min 100 (|netEnergyOf st inp| * 10) else 0

/-- Model of `batteryHealth` (`data.js` lines 248-253): computed from the unrounded
working battery percentage. -/
noncomputable def batteryHealthOf (st : ManagerState) (inp : GenInput) : String :=
  if batteryRawOf st inp < 10 then "Critical"
  else if batteryRawOf st inp < 30 then "Warning"
  else "Good"

/-- Model of `efficiency` (`data.js` line 256).  In JavaScript a positive total
generation divided by a zero total consumption gives `Infinity`, and
`Math.min(100, Infinity) = 100`; the zero-denominator branch makes that
explicit here. -/
noncomputable def efficiencyOf (st : ManagerState) (inp : GenInput) : ℝ :=
  if totalGenerationOf inp > 0 then
    if totalConsumptionOf st inp = 0 then 100
    else min 100 (totalGenerationOf inp / totalConsumptionOf st inp * 100)
  else 0

/-! ## Historical series maintenance (`data.js` lines 351-408)

`fmt t period` stands for `formatTimeForPeriod(new Date(t), period)`
(locale dependent, lines 183-204); `parse lbl` stands for
`new Date(lbl).getTime()`, with `none` for an Invalid Date, whose `NaN`
time difference makes every threshold comparison false. -/

/-- Model of `shouldUpdateData(period, currentTime)` (`data.js` lines 373-389). -/
def shouldUpdateData (parse : String → Option ℤ) (s : Series) (period : String)
    (currentTime : ℤ) : Bool :=
  match s.labels.getLast? with
  | none => true
  | some lbl =>
    match parse lbl with
    | none => false
    | some lastTime =>
      let timeDiff := currentTime - lastTime
      if period = "24h" then decide (timeDiff ≥ 30 * 60 * 1000)
      else if period = "7d" ∨ period = "30d" then decide (timeDiff ≥ 60 * 60 * 1000)
      else false

/-- Model of `maxPoints` of `addDataPoint` (`data.js` line 396). -/
def maxPoints (period : String) : ℕ :=
  if period = "24h" then 48 else if period = "7d" then 168 else 720

/-- Model of `addDataPoint(period, time)` (`data.js` lines 394-408): shift the
oldest entry of each of the three arrays when at the limit, then push the
new label and the generation and consumption totals of the snapshot. -/
def addDataPoint (fmt : ℤ → String → String) (s : Series) (period : String)
    (time : ℤ) (g c : ℝ) : Series :=
  let s1 : Series :=
    if s.labels.length ≥ maxPoints period then
      ⟨s.labels.tail, s.generation.tail, s.consumption.tail⟩
    else s
  ⟨s1.labels ++ [fmt time period], s1.generation ++ [g], s1.consumption ++ [c]⟩

/-- Model of `updateHistoricalData()` (`data.js` lines 351-368), applied to the
snapshot timestamp `t` and the stored generation and consumption totals. -/
def updateHistoricalData (parse : String → Option ℤ) (fmt : ℤ → String → String)
    (hd : HistoricalData) (t : ℤ) (g c : ℝ) : HistoricalData :=
  let hd1 := if shouldUpdateData parse hd.h24 "24h" t then
    { hd with h24 := addDataPoint fmt hd.h24 "24h" t g c } else hd
  let hd2 := if shouldUpdateData parse hd1.h7 "7d" t then
    { hd1 with h7 := addDataPoint fmt hd1.h7 "7d" t g c } else hd1
  if shouldUpdateData parse hd2.h30 "30d" t then
    { hd2 with h30 := addDataPoint fmt hd2.h30 "30d" t g c } else hd2

/-! ## Alerts (`data.js` lines 413-494) -/

/-- The critical battery candidate of `checkAlerts` (`data.js` lines 450-457);
`now` plays the role of both `Date.now()` and `new Date()`. -/
def criticalBatteryAlert (now p : ℤ) : Alert :=
  ⟨now, "critical", "Critical Battery Level",
    "Battery level is " ++ toString p ++ "%. Immediate action required.", now, false⟩

/-- The low battery candidate (`data.js` lines 459-466). -/
def lowBatteryAlert (now p : ℤ) : Alert :=
  ⟨now + 1, "warning", "Low Battery Warning",
    "Battery level is " ++ toString p ++ "%. Consider reducing loads.", now, false⟩

/-- The high grid load candidate (`data.js` lines 471-478). -/
def highGridLoadAlert (now l : ℤ) : Alert :=
  ⟨now + 2, "warning", "High Grid Load",
    "Grid load is " ++ toString l ++ "%. System under stress.", now, false⟩

/-- The `alerts` array built by `checkAlerts` from the stored battery
percentage `p` and grid load `l` (`data.js` lines 446-479). -/
def alertCandidates (p l now : ℤ) : List Alert :=
  (if p < 20 then [criticalBatteryAlert now p]
   else if p < 30 then [lowBatteryAlert now p]
   else []) ++
  (if l > 80 then [highGridLoadAlert now l] else [])

/-- One step of the `alerts.forEach` dedup-and-unshift loop
(`data.js` lines 482-490): the candidate is dropped when some existing
alert has the same title and a timestamp within 5 minutes. -/
def insertIfNew (acc : List Alert) (c : Alert) : List Alert :=
  if acc.any (fun a => decide (a.title = c.title ∧ |a.timestamp - c.timestamp| < 5 * 60 * 1000))
  then acc else c :: acc

/-- Model of `checkAlerts()` (`data.js` lines 445-494): insert the non-duplicate
candidates at the front, then keep only the first 50 alerts. -/
def checkAlerts (alerts : List Alert) (p l now : ℤ) : List Alert :=
  ((alertCandidates p l now).foldl insertIfNew alerts).take 50

/-- Model of `generateAlerts()` (`data.js` lines 413-440): the three seeded alerts. -/
def generateAlerts (now : ℤ) : List Alert :=
  [⟨1, "warning", "Low Battery Alert",
     "Battery level is below 25%. Consider reducing non-essential loads.",
     now - 5 * 60 * 1000, false⟩,
   ⟨2, "info", "Maintenance Reminder",
     "Solar panel cleaning recommended. Last cleaning: 30 days ago.",
     now - 2 * 60 * 60 * 1000, false⟩,
   ⟨3, "critical", "Grid Connection Lost",
     "Grid connection has been lost. System running on battery power.",
     now - 10 * 60 * 1000, true⟩]

/-! ## The full `generateCurrentData()` step (`data.js` lines 209-291) -/

/-- The snapshot written to `this.currentData` by `generateCurrentData()`
(`data.js` lines 258-284). -/
noncomputable def newSnapshot (st : ManagerState) (inp : GenInput) : Snapshot :=
  { timestamp := inp.now
    generation :=
      ⟨round2 (solarGeneration inp.hour inp.rSolar),
       round2 (windGeneration inp.rWind),
       round2 (totalGenerationOf inp)⟩
    consumption :=
      ⟨round2 (totalConsumptionOf st inp), round2 (totalConsumptionOf st inp)⟩
    battery :=
      ⟨round (batteryRawOf st inp),
       batteryHealthOf st inp,
       round1 (48 + batteryRawOf st inp / 100 * 6),
       round1 (25 + inp.rTemp * 10)⟩
    grid := ⟨gridStatusOf st inp, round (gridLoadOf st inp)⟩
    dailySummary :=
      ⟨round2 (st.currentData.dailySummary.totalGenerated + totalGenerationOf inp / 48),
       round2 (st.currentData.dailySummary.totalConsumed + totalConsumptionOf st inp / 48),
       round (efficiencyOf st inp)⟩ }

/-- Model of `generateCurrentData()` (`data.js` lines 209-291): update household
consumption, replace `this.currentData`, append to the historical series
that are due, and re-evaluate alerts. -/
noncomputable def generateCurrentData (parse : String → Option ℤ)
    (fmt : ℤ → String → String) (st : ManagerState) (inp : GenInput) : ManagerState :=
  let snap := newSnapshot st inp
  { st with
    currentData := snap
    households := updatedHouseholds st inp
    historicalData :=
      updateHistoricalData parse fmt st.historicalData snap.timestamp
        snap.generation.total snap.consumption.total
    alertsData :=
      checkAlerts st.alertsData snap.battery.percentage snap.grid.load inp.now }

/-! ## Construction-time initialization (`data.js` lines 6-127, 132-178) -/

/-- The `Math.random()` draws of one `initializePeriodData` call: per loop
iteration one solar, one wind and one consumption draw. -/
structure InitEntropy where
  rSolar : ℕ → ℝ
  rWind : ℕ → ℝ
  rCons : ℕ → ℝ

/-- Model of `consumptionBase` of `initializePeriodData` (`data.js` lines 160-171). -/
def consumptionBase (hour day : ℤ) : ℝ :=
  if 1 ≤ day ∧ day ≤ 5 then
    if (hour ≥ 7 ∧ hour ≤ 9) ∨ (hour ≥ 18 ∧ hour ≤ 22) then 8
    else if hour ≥ 10 ∧ hour ≤ 17 then 6
    else 4
  else
    if hour ≥ 10 ∧ hour ≤ 22 then 7 else 4

/-- Model of `initializePeriodData(period, points, intervalMinutes)`
(`data.js` lines 132-178): the loop runs `i` from `points - 1` down to 0,
so iteration `k` works on `i = points - 1 - k`.  `hourOf` and `dayOf`
stand for `Date#getHours` and `Date#getDay` (timezone dependent). -/
noncomputable def initializePeriodData (hourOf dayOf : ℤ → ℤ)
    (fmt : ℤ → String → String) (e : InitEntropy) (now : ℤ) (period : String)
    (points intervalMinutes : ℕ) : Series :=
  let timeAt : ℕ → ℤ := fun k =>
    now - ((points - 1 - k : ℕ) : ℤ) * (intervalMinutes : ℤ) * 60 * 1000
  let genAt : ℕ → ℝ := fun k =>
    round2 (solarGeneration (hourOf (timeAt k)) (e.rSolar k) + windGeneration (e.rWind k))
  let consAt : ℕ → ℝ := fun k =>
    round2 (consumptionBase (hourOf (timeAt k)) (dayOf (timeAt k)) + e.rCons k * 3)
  ⟨(List.range points).map fun k => fmt (timeAt k) period,
   (List.range points).map genAt,
   (List.range points).map consAt⟩

/-- Model of `initializeHistoricalData()` (`data.js` lines 123-127). -/
noncomputable def initializeHistoricalData (hourOf dayOf : ℤ → ℤ)
    (fmt : ℤ → String → String) (e24 e7 e30 : InitEntropy) (now : ℤ) :
    HistoricalData :=
  ⟨initializePeriodData hourOf dayOf fmt e24 now "24h" 48 30,
   initializePeriodData hourOf dayOf fmt e7 now "7d" 168 60,
   initializePeriodData hourOf dayOf fmt e30 now "30d" 720 60⟩

/-- Seeded devices of House 1 (`data.js` lines 49-54). -/
noncomputable def hvacHouse1 : Device := ⟨"HVAC", 0, "on", "high"⟩

noncomputable def waterHeater1 : Device := ⟨"Water Heater", 0, "on", "medium"⟩

noncomputable def refrigerator1 : Device := ⟨"Refrigerator", 0.8, "on", "high"⟩

noncomputable def lighting1 : Device := ⟨"Lighting", 0, "on", "low"⟩

/-- Seeded household House 1 (`data.js` lines 44-55). -/
noncomputable def house1 : Household :=
  ⟨"house1", "House 1", "Active", 0,
   [hvacHouse1, waterHeater1, refrigerator1, lighting1]⟩

/-- Seeded household House 2 (`data.js` lines 56-67). -/
noncomputable def house2 : Household :=
  ⟨"house2", "House 2", "Active", 0,
   [⟨"HVAC", 0, "on", "high"⟩,
    ⟨"Electric Vehicle", 0, "off", "low"⟩,
    ⟨"Washer/Dryer", 0, "off", "low"⟩,
    ⟨"Kitchen Appliances", 0, "on", "medium"⟩]⟩

/-- Seeded household House 3 (`data.js` lines 68-79). -/
noncomputable def house3 : Household :=
  ⟨"house3", "House 3", "Active", 0,
   [⟨"Heat Pump", 0, "on", "high"⟩,
    ⟨"Pool Pump", 0, "off", "low"⟩,
    ⟨"Electronics", 0, "on", "medium"⟩,
    ⟨"Outdoor Lighting", 0, "auto", "low"⟩]⟩

/-- The three seeded households (`data.js` lines 42-81). -/
noncomputable def initialHouseholds : List Household := [house1, house2, house3]

/-- The initial `currentData` snapshot (`data.js` lines 8-34); the
constructor stores `new Date()` in `timestamp`. -/
def initialSnapshot (now : ℤ) : Snapshot :=
  { timestamp := now
    generation := ⟨0, 0, 0⟩
    consumption := ⟨0, 0⟩
    battery := ⟨75, "Good", 0, 0⟩
    grid := ⟨"OFF", 0⟩
    dailySummary := ⟨0, 0, 0⟩ }

/-- The state right after `new EnergyDataManager()` (`data.js` lines 6-118). -/
noncomputable def initialState (hourOf dayOf : ℤ → ℤ)
    (fmt : ℤ → String → String) (e24 e7 e30 : InitEntropy) (now : ℤ) :
    ManagerState :=
  { currentData := initialSnapshot now
    historicalData := initializeHistoricalData hourOf dayOf fmt e24 e7 e30 now
    households := initialHouseholds
    alertsData := generateAlerts now
    controlsData := ⟨⟨true, true, true⟩, ⟨10, 20, "normal"⟩⟩
    schedules :=
      [⟨1, "Night Charging", true, "22:00 - 06:00", "Charge EV", "Low grid rates"⟩,
       ⟨2, "Peak Shaving", true, "16:00 - 20:00", "Reduce non-essential loads",
        "High grid rates"⟩] }

/-! ## Report statistics (`getReportData`, `data.js` lines 611-635)

JavaScript floating-point division can produce `NaN` (0/0, empty-series
averages) and `Infinity` (positive/0); `Math.max()` of an empty spread is
`-Infinity`.  `JSVal` makes those special values explicit. -/

/-- A JavaScript number that is either finite, `NaN`, `Infinity` or
`-Infinity`. -/
inductive JSVal where
  | num : ℝ → JSVal
  | nan : JSVal
  | inf : JSVal
  | ninf : JSVal

/-- JavaScript division of finite values: `0/0 = NaN`, `x/0 = ±Infinity`. -/
noncomputable def jsDiv (a b : ℝ) : JSVal :=
  if b = 0 then
    if a = 0 then JSVal.nan else if a > 0 then JSVal.inf else JSVal.ninf
  else JSVal.num (a / b)

/-- Model of `arr.reduce((a, b) => a + b, 0)`. -/
def jsSum (l : List ℝ) : ℝ := l.foldl (fun a b => a + b) 0

/-- Model of `arr.reduce((a, b) => a + b, 0) / arr.length`. -/
noncomputable def jsAvg (l : List ℝ) : JSVal := jsDiv (jsSum l) (l.length : ℝ)

/-- The `> 0` test on a JavaScript number (`NaN > 0` is false). -/
noncomputable def jsGtZero : JSVal → Bool
  | JSVal.num q => decide (0 < q)
  | JSVal.inf => true
  | _ => false

/-- Division of two JavaScript numbers; only the finite/finite case is
reached by `getReportData`, the rest follows IEEE conventions. -/
noncomputable def jsDivV : JSVal → JSVal → JSVal
  | JSVal.num a, JSVal.num b => jsDiv a b
  | JSVal.nan, _ => JSVal.nan
  | _, JSVal.nan => JSVal.nan
  | JSVal.inf, JSVal.num b => if b < 0 then JSVal.ninf else JSVal.inf
  | JSVal.ninf, JSVal.num b => if b < 0 then JSVal.inf else JSVal.ninf
  | JSVal.num _, JSVal.inf => JSVal.num 0
  | JSVal.num _, JSVal.ninf => JSVal.num 0
  | JSVal.inf, JSVal.inf => JSVal.nan
  | JSVal.inf, JSVal.ninf => JSVal.nan
  | JSVal.ninf, JSVal.inf => JSVal.nan
  | JSVal.ninf, JSVal.ninf => JSVal.nan

/-- Multiplication by the positive constant 100. -/
noncomputable def jsMul100 : JSVal → JSVal
  | JSVal.num q => JSVal.num (q * 100)
  | JSVal.nan => JSVal.nan
  | JSVal.inf => JSVal.inf
  | JSVal.ninf => JSVal.ninf

/-- Model of `Math.round` on a JavaScript number (`NaN` and infinities unchanged). -/
noncomputable def jsRoundV : JSVal → JSVal
  | JSVal.num q => JSVal.num (round q : ℤ)
  | v => v

/-- Model of `Math.round(x * 100) / 100` on a JavaScript number. -/
noncomputable def jsRound2V : JSVal → JSVal
  | JSVal.num q => JSVal.num (round2 q)
  | v => v

/-- Model of `Math.max(...arr)`: `-Infinity` on an empty array. -/
noncomputable def jsMaxList : List ℝ → JSVal
  | [] => JSVal.ninf
  | x :: rest => JSVal.num (rest.foldl max x)

/-- The `statistics` object of `getReportData` (`data.js` lines 622-633). -/
structure ReportStatistics where
  avgGeneration : JSVal
  avgConsumption : JSVal
  efficiency : JSVal
  peakGeneration : JSVal
  peakConsumption : JSVal
  totalGeneration : ℝ
  totalConsumption : ℝ

/-- The statistics computation of `getReportData(period)`
(`data.js` lines 614-633) on the generation and consumption arrays of the
retrieved series. -/
noncomputable def reportStatistics (genL consL : List ℝ) : ReportStatistics :=
  let avgGeneration := jsAvg genL
  let avgConsumption := jsAvg consL
  let efficiency :=
    if jsGtZero avgGeneration then jsMul100 (jsDivV avgGeneration avgConsumption)
    else JSVal.num 0
  { avgGeneration := jsRound2V avgGeneration
    avgConsumption := jsRound2V avgConsumption
    efficiency := jsRoundV efficiency
    peakGeneration := jsRound2V (jsMaxList genL)
    peakConsumption := jsRound2V (jsMaxList consL)
    totalGeneration := round2 (jsSum genL)
    totalConsumption := round2 (jsSum consL) }

/-- Model of `this.historicalData[period]` as a lookup (`undefined`, hence `none`,
for an untracked period string). -/
def lookupSeries (hd : HistoricalData) : String → Option Series
  | "24h" => some hd.h24
  | "7d" => some hd.h7
  | "30d" => some hd.h30
  | _ => none

/-- Model of `getReportData(period)` (`data.js` lines 611-635): the retrieved series
together with its statistics. -/
noncomputable def getReportData (st : ManagerState) (period : String) :
    Option (Series × ReportStatistics) :=
  (lookupSeries st.historicalData period).map fun s =>
    (s, reportStatistics s.generation s.consumption)

/-! ## Lemmas about `toggleDevice` -/

lemma toggleDeviceList_some (dpre : List Device) (d : Device) (dpost : List Device)
    (dn : String) (hdpre : ∀ d' ∈ dpre, d'.name ≠ dn) (hd : d.name = dn) :
    toggleDeviceList (dpre ++ d :: dpost) dn =
      some (dpre ++ { d with status := toggleStatus d.status } :: dpost) := by
  induction dpre with
  | nil => simp [toggleDeviceList, hd]
  | cons d' rest ih =>
    have hne : d'.name ≠ dn := hdpre d' (by simp)
    have ih' := ih (fun x hx => hdpre x (by simp [hx]))
    simp only [List.cons_append, toggleDeviceList, if_neg hne, List.append_eq, ih']

lemma toggleDeviceList_none (ds : List Device) (dn : String)
    (h : ∀ d ∈ ds, d.name ≠ dn) : toggleDeviceList ds dn = none := by
  induction ds with
  | nil => rfl
  | cons d rest ih =>
    have hne : d.name ≠ dn := h d (by simp)
    have ih' := ih (fun x hx => h x (by simp [hx]))
    simp only [toggleDeviceList, if_neg hne, ih']

lemma toggleHouseholds_some (pre : List Household) (h : Household)
    (post : List Household) (hid dn : String) (ds' : List Device)
    (hpre : ∀ h' ∈ pre, h'.id ≠ hid) (hh : h.id = hid)
    (hdev : toggleDeviceList h.devices dn = some ds') :
    toggleHouseholds (pre ++ h :: post) hid dn =
      some (pre ++ { h with devices := ds' } :: post) := by
  induction pre with
  | nil => simp [toggleHouseholds, hh, hdev]
  | cons h' rest ih =>
    have hne : h'.id ≠ hid := hpre h' (by simp)
    have ih' := ih (fun x hx => hpre x (by simp [hx]))
    simp only [List.cons_append, toggleHouseholds, if_neg hne, List.append_eq, ih']

lemma toggleHouseholds_none_of_no_id (hs : List Household) (hid dn : String)
    (h : ∀ h' ∈ hs, h'.id ≠ hid) : toggleHouseholds hs hid dn = none := by
  induction hs with
  | nil => rfl
  | cons h' rest ih =>
    have hne : h'.id ≠ hid := h h' (by simp)
    have ih' := ih (fun x hx => h x (by simp [hx]))
    simp only [toggleHouseholds, if_neg hne, ih']

lemma toggleHouseholds_none_of_no_device (pre : List Household) (h : Household)
    (post : List Household) (hid dn : String)
    (hpre : ∀ h' ∈ pre, h'.id ≠ hid) (hh : h.id = hid)
    (hnd : ∀ d ∈ h.devices, d.name ≠ dn) :
    toggleHouseholds (pre ++ h :: post) hid dn = none := by
  induction pre with
  | nil => simp [toggleHouseholds, hh, toggleDeviceList_none h.devices dn hnd]
  | cons h' rest ih =>
    have hne : h'.id ≠ hid := hpre h' (by simp)
    have ih' := ih (fun x hx => hpre x (by simp [hx]))
    simp only [List.cons_append, toggleHouseholds, if_neg hne, List.append_eq, ih']

/-- Elementwise effect of `toggleDeviceList`: every position is unchanged
or has exactly its status flipped. -/
lemma toggleDeviceList_getElem (ds : List Device) (dn : String)
    (ds' : List Device) (hds : toggleDeviceList ds dn = some ds') (j : ℕ) :
    ds'[j]? = ds[j]? ∨
      ∃ d, ds[j]? = some d ∧ ds'[j]? = some { d with status := toggleStatus d.status } := by
  induction ds generalizing ds' j with
  | nil => simp [toggleDeviceList] at hds
  | cons d rest ih =>
    by_cases hname : d.name = dn
    · simp only [toggleDeviceList, if_pos hname, Option.some.injEq] at hds
      subst hds
      match j with
      | 0 => right; exact ⟨d, by simp, by simp⟩
      | j + 1 => left; simp
    · simp only [toggleDeviceList, if_neg hname] at hds
      cases hrec : toggleDeviceList rest dn with
      | none => rw [hrec] at hds; cases hds
      | some rest' =>
        rw [hrec] at hds
        simp only [Option.some.injEq] at hds
        subst hds
        match j with
        | 0 => left; simp
        | j + 1 => simpa using ih rest' hrec j

/-- Elementwise effect of `toggleHouseholds`: every position is unchanged
or has exactly one device list rewritten by `toggleDeviceList`. -/
lemma toggleHouseholds_getElem (hs : List Household) (hid dn : String)
    (hs' : List Household) (hsome : toggleHouseholds hs hid dn = some hs') (i : ℕ) :
    hs'[i]? = hs[i]? ∨
      ∃ hh ds', hs[i]? = some hh ∧ toggleDeviceList hh.devices dn = some ds' ∧
        hs'[i]? = some { hh with devices := ds' } := by
  induction hs generalizing hs' i with
  | nil => simp [toggleHouseholds] at hsome
  | cons hh rest ih =>
    by_cases hmatch : hh.id = hid
    · simp only [toggleHouseholds, if_pos hmatch] at hsome
      cases hdl : toggleDeviceList hh.devices dn with
      | none => rw [hdl] at hsome; cases hsome
      | some ds' =>
        rw [hdl] at hsome
        simp only [Option.some.injEq] at hsome
        subst hsome
        match i with
        | 0 => right; exact ⟨hh, ds', by simp, hdl, by simp⟩
        | i + 1 => left; simp
    · simp only [toggleHouseholds, if_neg hmatch] at hsome
      cases hrec : toggleHouseholds rest hid dn with
      | none => rw [hrec] at hsome; cases hsome
      | some rest' =>
        rw [hrec] at hsome
        simp only [Option.some.injEq] at hsome
        subst hsome
        match i with
        | 0 => left; simp
        | i + 1 => simpa using ih rest' hrec i

/-- Elementwise effect of a `toggleDevice` call on device statuses. -/
lemma statusAt_toggleDevice (st : ManagerState) (hid dn : String) (i j : ℕ) :
    statusAt (toggleDevice st hid dn).2 i j = statusAt st i j ∨
      ∃ s, statusAt st i j = some s ∧
        statusAt (toggleDevice st hid dn).2 i j = some (toggleStatus s) := by
  unfold toggleDevice
  cases hhs : toggleHouseholds st.households hid dn with
  | none => left; rfl
  | some hs' =>
    rcases toggleHouseholds_getElem st.households hid dn hs' hhs i with
      hsame | ⟨hh, ds', hget, hdl, hget'⟩
    · left
      simp [statusAt, hsame]
    · rcases toggleDeviceList_getElem hh.devices dn ds' hdl j with hj | ⟨d, hjd, hjd'⟩
      · left
        simp [statusAt, hget, hget', hj]
      · right
        exact ⟨d.status, by simp [statusAt, hget, hjd], by simp [statusAt, hget', hjd']⟩

lemma toggleStatus_ne_auto (s : String) : toggleStatus s ≠ "auto" := by
  unfold toggleStatus
  split <;> decide

/-- Once a device status differs from `"auto"`, no `toggleDevice` sequence
brings it back. -/
lemma statusAt_applyToggles_ne_auto (st : ManagerState)
    (calls : List (String × String)) (i j : ℕ) (s : String)
    (hs : statusAt st i j = some s) (hauto : s ≠ "auto") :
    ∃ s', statusAt (applyToggles st calls) i j = some s' ∧ s' ≠ "auto" := by
  induction calls generalizing st s with
  | nil => exact ⟨s, hs, hauto⟩
  | cons c rest ih =>
    rcases statusAt_toggleDevice st c.1 c.2 i j with hsame | ⟨s0, hs0, hs0'⟩
    · exact ih (toggleDevice st c.1 c.2).2 s (by rw [hsame, hs]) hauto
    · have : s0 = s := by rw [hs0] at hs; exact Option.some.inj hs
      subst this
      exact ih (toggleDevice st c.1 c.2).2 (toggleStatus s0) hs0'
        (toggleStatus_ne_auto s0)

/-- Success of `toggleDevice` on the first id match and first name match. -/
lemma toggleDevice_success (st : ManagerState) (hid dn : String)
    (pre : List Household) (h : Household) (post : List Household)
    (dpre : List Device) (d : Device) (dpost : List Device)
    (hhs : st.households = pre ++ h :: post)
    (hpre : ∀ h' ∈ pre, h'.id ≠ hid) (hh : h.id = hid)
    (hdev : h.devices = dpre ++ d :: dpost)
    (hdpre : ∀ d' ∈ dpre, d'.name ≠ dn) (hd : d.name = dn) :
    toggleDevice st hid dn =
      (true, { st with households :=
        pre ++ { h with devices :=
          dpre ++ { d with status := toggleStatus d.status } :: dpost } :: post }) := by
  unfold toggleDevice
  rw [hhs, toggleHouseholds_some pre h post hid dn _ hpre hh
    (by rw [hdev]; exact toggleDeviceList_some dpre d dpost dn hdpre hd)]

/-- A small but fully populated manager state used for witnesses: the
seeded households with empty history and no alerts. -/
noncomputable def sampleState : ManagerState :=
  { currentData := initialSnapshot 0
    historicalData := ⟨⟨[], [], []⟩, ⟨[], [], []⟩, ⟨[], [], []⟩⟩
    households := initialHouseholds
    alertsData := []
    controlsData := ⟨⟨true, true, true⟩, ⟨10, 20, "normal"⟩⟩
    schedules := [] }

/-- C9.  `toggleDevice(householdId, deviceName)` with an existing household
and device flips only that one device's status field (first id match,
first name match) and leaves every other device, every other household and
all other manager state unchanged, returning `true`; with no matching
household id, or no matching device name inside the first matching
household, it returns `false` and the state is unchanged. -/
theorem toggleDevice_frame :
    (∀ (st : ManagerState) (hid dn : String) (pre : List Household) (h : Household)
        (post : List Household) (dpre : List Device) (d : Device) (dpost : List Device),
      st.households = pre ++ h :: post → (∀ h' ∈ pre, h'.id ≠ hid) → h.id = hid →
      h.devices = dpre ++ d :: dpost → (∀ d' ∈ dpre, d'.name ≠ dn) → d.name = dn →
      toggleDevice st hid dn =
        (true, { st with households :=
          pre ++ { h with devices :=
            dpre ++ { d with status := toggleStatus d.status } :: dpost } :: post })) ∧
    (∀ (st : ManagerState) (hid dn : String),
      (∀ h' ∈ st.households, h'.id ≠ hid) → toggleDevice st hid dn = (false, st)) ∧
    (∀ (st : ManagerState) (hid dn : String) (pre : List Household) (h : Household)
        (post : List Household),
      st.households = pre ++ h :: post → (∀ h' ∈ pre, h'.id ≠ hid) → h.id = hid →
      (∀ d ∈ h.devices, d.name ≠ dn) → toggleDevice st hid dn = (false, st)) := by
  refine ⟨?_, ?_, ?_⟩
  · intro st hid dn pre h post dpre d dpost hhs hpre hh hdev hdpre hd
    exact toggleDevice_success st hid dn pre h post dpre d dpost hhs hpre hh hdev hdpre hd
  · intro st hid dn hno
    unfold toggleDevice
    rw [toggleHouseholds_none_of_no_id st.households hid dn hno]
  · intro st hid dn pre h post hhs hpre hh hnd
    unfold toggleDevice
    rw [hhs, toggleHouseholds_none_of_no_device pre h post hid dn hpre hh hnd]

/-- Witness for C9: toggling `house1`'s `HVAC` in the seeded state flips
exactly that device's status (from `on` to `off`) and nothing else. -/
theorem toggleDevice_frame_witness :
    sampleState.households = [] ++ house1 :: [house2, house3] ∧
    house1.id = "house1" ∧
    house1.devices = [] ++ hvacHouse1 :: [waterHeater1, refrigerator1, lighting1] ∧
    hvacHouse1.name = "HVAC" ∧
    toggleDevice sampleState "house1" "HVAC" =
      (true, { sampleState with households :=
        [] ++ { house1 with devices :=
          [] ++ { hvacHouse1 with status := toggleStatus hvacHouse1.status } ::
            [waterHeater1, refrigerator1, lighting1] } :: [house2, house3] }) :=
  ⟨rfl, rfl, rfl, rfl,
    toggleDevice_frame.1 sampleState "house1" "HVAC" [] house1 [house2, house3]
      [] hvacHouse1 [waterHeater1, refrigerator1, lighting1]
      rfl (by simp) rfl rfl (by simp) rfl⟩

/-- C10.  The status flip of `toggleDevice` sets a device to `off` exactly
when its current status is `on` and to `on` in every other case; in
particular a device whose status is `auto` is set to `on`, and no sequence
of `toggleDevice` calls can ever give a device the `auto` status again
once its status differs from `auto`. -/
theorem toggleDevice_status_transitions :
    (∀ s, toggleStatus s = "off" ↔ s = "on") ∧
    (∀ s, s ≠ "on" → toggleStatus s = "on") ∧
    (∀ (st : ManagerState) (hid dn : String) (pre : List Household) (h : Household)
        (post : List Household) (dpre : List Device) (d : Device) (dpost : List Device),
      st.households = pre ++ h :: post → (∀ h' ∈ pre, h'.id ≠ hid) → h.id = hid →
      h.devices = dpre ++ d :: dpost → (∀ d' ∈ dpre, d'.name ≠ dn) → d.name = dn →
      d.status = "auto" →
      toggleDevice st hid dn =
        (true, { st with households :=
          pre ++ { h with devices :=
            dpre ++ { d with status := "on" } :: dpost } :: post })) ∧
    (∀ (st : ManagerState) (calls : List (String × String)) (i j : ℕ) (s : String),
      statusAt st i j = some s → s ≠ "auto" →
      ∃ s', statusAt (applyToggles st calls) i j = some s' ∧ s' ≠ "auto") := by
  refine ⟨?_, ?_, ?_, ?_⟩
  · intro s
    unfold toggleStatus
    by_cases hs : s = "on"
    · simp [hs]
    · simp [hs]
  · intro s hs
    unfold toggleStatus
    simp [hs]
  · intro st hid dn pre h post dpre d dpost hhs hpre hh hdev hdpre hd hauto
    have hstep := toggleDevice_success st hid dn pre h post dpre d dpost hhs hpre hh
      hdev hdpre hd
    rw [hauto] at hstep
    exact hstep
  · exact statusAt_applyToggles_ne_auto

/-- Witness for C10: in the seeded state the `HVAC` device of `house1` has
status `on`, which is not `auto`, and after a sequence of toggle calls its
status is still not `auto`. -/
theorem toggleDevice_status_transitions_witness :
    statusAt sampleState 0 0 = some "on" ∧ "on" ≠ "auto" ∧
    ∃ s', statusAt
        (applyToggles sampleState [("house1", "HVAC"), ("house1", "HVAC")]) 0 0 =
        some s' ∧ s' ≠ "auto" :=
  ⟨rfl, by decide,
    toggleDevice_status_transitions.2.2.2 sampleState
      [("house1", "HVAC"), ("house1", "HVAC")] 0 0 "on" rfl (by decide)⟩

/-! ## Battery clamping (claim C7) -/

/-- Rounding keeps a real in `[0, 100]` inside the integer range `[0, 100]`. -/
lemma round_mem_zero_hundred (x : ℝ) (h0 : 0 ≤ x) (h1 : x ≤ 100) :
    0 ≤ round x ∧ round x ≤ 100 := by
  rw [round_eq]
  constructor
  · exact Int.le_floor.2 (by push_cast; linarith)
  · have : ⌊x + 1 / 2⌋ < 101 := Int.floor_lt.2 (by push_cast; linarith)
    omega

/-- The clamped working battery percentage stays in `[0, 100]` whenever the
stored percentage is. -/
lemma batteryRawOf_mem (st : ManagerState) (inp : GenInput)
    (h0 : 0 ≤ st.currentData.battery.percentage)
    (h1 : st.currentData.battery.percentage ≤ 100) :
    0 ≤ batteryRawOf st inp ∧ batteryRawOf st inp ≤ 100 := by
  have hb0 : (0 : ℝ) ≤ (st.currentData.battery.percentage : ℝ) := by exact_mod_cast h0
  have hb1 : (st.currentData.battery.percentage : ℝ) ≤ 100 := by exact_mod_cast h1
  unfold batteryRawOf
  rcases lt_trichotomy (netEnergyOf st inp) 0 with hneg | hzero | hpos
  · rw [if_neg (by linarith), if_pos hneg]
    refine ⟨le_max_left 0 _, max_le (by norm_num) ?_⟩
    nlinarith
  · rw [if_neg (by rw [hzero]; exact lt_irrefl 0), if_neg (by rw [hzero]; exact lt_irrefl 0)]
    exact ⟨hb0, hb1⟩
  · rw [if_pos hpos]
    refine ⟨le_min (by norm_num) ?_, min_le_left 100 _⟩
    nlinarith

/-- One `generateCurrentData` step keeps the stored battery percentage in
`[0, 100]`. -/
lemma battery_step (parse : String → Option ℤ) (fmt : ℤ → String → String)
    (st : ManagerState) (inp : GenInput)
    (h : 0 ≤ st.currentData.battery.percentage ∧ st.currentData.battery.percentage ≤ 100) :
    0 ≤ (generateCurrentData parse fmt st inp).currentData.battery.percentage ∧
      (generateCurrentData parse fmt st inp).currentData.battery.percentage ≤ 100 := by
  have hraw := batteryRawOf_mem st inp h.1 h.2
  have hp : (generateCurrentData parse fmt st inp).currentData.battery.percentage =
      round (batteryRawOf st inp) := rfl
  rw [hp]
  exact round_mem_zero_hundred _ hraw.1 hraw.2

/-- C7.  Starting from the freshly constructed manager, the stored
`battery.percentage` is inside `[0, 100]` after every sequence of snapshot
generations, whatever the inputs (hence whatever the sign or magnitude of
the cumulative net energy). -/
theorem battery_percentage_clamped (parse : String → Option ℤ)
    (fmt : ℤ → String → String) (hourOf dayOf : ℤ → ℤ)
    (fmt0 : ℤ → String → String) (e24 e7 e30 : InitEntropy) (now : ℤ)
    (inps : List GenInput) :
    0 ≤ (inps.foldl (generateCurrentData parse fmt)
          (initialState hourOf dayOf fmt0 e24 e7 e30 now)).currentData.battery.percentage ∧
      (inps.foldl (generateCurrentData parse fmt)
          (initialState hourOf dayOf fmt0 e24 e7 e30 now)).currentData.battery.percentage ≤ 100 := by
  have main : ∀ (inps : List GenInput) (st : ManagerState),
      0 ≤ st.currentData.battery.percentage ∧ st.currentData.battery.percentage ≤ 100 →
      0 ≤ (inps.foldl (generateCurrentData parse fmt) st).currentData.battery.percentage ∧
        (inps.foldl (generateCurrentData parse fmt) st).currentData.battery.percentage ≤ 100 := by
    intro inps
    induction inps with
    | nil => intro st h; exact h
    | cons inp rest ih =>
      intro st h
      exact ih _ (battery_step parse fmt st inp h)
  exact main inps _ ⟨by norm_num [initialState, initialSnapshot], by norm_num [initialState, initialSnapshot]⟩

/-! ## Generation bounds (claim C8) -/

lemma round2_nonneg (x : ℝ) (hx : 0 ≤ x) : 0 ≤ round2 x := by
  unfold round2
  have h : (0 : ℤ) ≤ round (x * 100) := by
    rw [round_eq]
    exact Int.le_floor.2 (by push_cast; linarith)
  positivity

/-- Bounds on the solar formula: non-negative, zero outside the daylight
window, and at most 12 inside it when the random draw is in `[0, 1)`. -/
lemma solarGeneration_bounds (hour : ℤ) (r : ℝ) (hr0 : 0 ≤ r) (hr1 : r < 1) :
    0 ≤ solarGeneration hour r ∧
      (¬(6 ≤ hour ∧ hour ≤ 18) → solarGeneration hour r = 0) ∧
      ((6 ≤ hour ∧ hour ≤ 18) → solarGeneration hour r ≤ 12) := by
  unfold solarGeneration
  by_cases hh : 6 ≤ hour ∧ hour ≤ 18
  · rw [if_pos hh]
    have hc0 : (0 : ℝ) ≤ ((hour : ℝ) - 6) / 12 := by
      have : (6 : ℝ) ≤ (hour : ℝ) := by exact_mod_cast hh.1
      linarith
    have hc1 : ((hour : ℝ) - 6) / 12 ≤ 1 := by
      have : (hour : ℝ) ≤ 18 := by exact_mod_cast hh.2
      linarith
    have hθ0 : 0 ≤ ((hour : ℝ) - 6) / 12 * Real.pi :=
      mul_nonneg hc0 Real.pi_pos.le
    have hθ1 : ((hour : ℝ) - 6) / 12 * Real.pi ≤ Real.pi :=
      mul_le_of_le_one_left Real.pi_pos.le hc1
    have hsin0 : 0 ≤ Real.sin (((hour : ℝ) - 6) / 12 * Real.pi) :=
      Real.sin_nonneg_of_nonneg_of_le_pi hθ0 hθ1
    have hsin1 : Real.sin (((hour : ℝ) - 6) / 12 * Real.pi) ≤ 1 := Real.sin_le_one _
    have hamp0 : (0 : ℝ) ≤ 8 + r * 4 := by linarith
    refine ⟨mul_nonneg hsin0 hamp0, fun hc => absurd hh hc, fun _ => ?_⟩
    have : Real.sin (((hour : ℝ) - 6) / 12 * Real.pi) * (8 + r * 4) ≤ 8 + r * 4 :=
      mul_le_of_le_one_left hamp0 hsin1
    linarith
  · rw [if_neg hh]
    exact ⟨le_refl 0, fun _ => rfl, fun hc => absurd hc hh⟩

/-- C8.  For every snapshot written by `generateCurrentData`, with the
`Math.random()` draws in `[0, 1)`: the stored `generation.total` is the
2-decimal rounding of `solar + wind`, the stored solar and wind components
are the 2-decimal roundings of the raw components and are non-negative,
the raw solar output is 0 for hours outside `[6, 18]` and lies in
`[0, 12]` for hours inside, and the raw wind output lies in `[3, 9)`. -/
theorem generation_component_bounds (parse : String → Option ℤ)
    (fmt : ℤ → String → String) (st : ManagerState) (inp : GenInput)
    (hS : 0 ≤ inp.rSolar ∧ inp.rSolar < 1) (hW : 0 ≤ inp.rWind ∧ inp.rWind < 1) :
    ((generateCurrentData parse fmt st inp).currentData.generation.total =
        round2 (solarGeneration inp.hour inp.rSolar + windGeneration inp.rWind)) ∧
    ((generateCurrentData parse fmt st inp).currentData.generation.solar =
        round2 (solarGeneration inp.hour inp.rSolar)) ∧
    ((generateCurrentData parse fmt st inp).currentData.generation.wind =
        round2 (windGeneration inp.rWind)) ∧
    0 ≤ (generateCurrentData parse fmt st inp).currentData.generation.solar ∧
    0 ≤ (generateCurrentData parse fmt st inp).currentData.generation.wind ∧
    0 ≤ solarGeneration inp.hour inp.rSolar ∧
    (¬(6 ≤ inp.hour ∧ inp.hour ≤ 18) → solarGeneration inp.hour inp.rSolar = 0) ∧
    ((6 ≤ inp.hour ∧ inp.hour ≤ 18) → solarGeneration inp.hour inp.rSolar ≤ 12) ∧
    3 ≤ windGeneration inp.rWind ∧ windGeneration inp.rWind < 9 := by
  obtain ⟨hsol0, hsolOut, hsolIn⟩ :=
    solarGeneration_bounds inp.hour inp.rSolar hS.1 hS.2
  have hwind0 : (0 : ℝ) ≤ windGeneration inp.rWind := by
    unfold windGeneration; linarith [hW.1]
  refine ⟨rfl, rfl, rfl, round2_nonneg _ hsol0, round2_nonneg _ hwind0,
    hsol0, hsolOut, hsolIn, ?_, ?_⟩
  · unfold windGeneration; linarith [hW.1]
  · unfold windGeneration; linarith [hW.2]

/-- A trivial label parser for witnesses: every label is an Invalid Date. -/
def trivialParse : String → Option ℤ := fun _ => none

/-- A trivial label formatter for witnesses. -/
def trivialFmt : ℤ → String → String := fun _ _ => ""

/-- A noon input with all random draws 0. -/
noncomputable def noonInput : GenInput :=
  ⟨0, 12, 0, 0, 0, 0, fun _ _ => 0⟩

/-- Witness for C8 at noon with zero random draws. -/
theorem generation_component_bounds_witness :
    ((0 : ℝ) ≤ 0 ∧ (0 : ℝ) < 1) ∧
    (((generateCurrentData trivialParse trivialFmt sampleState noonInput).currentData.generation.total =
        round2 (solarGeneration noonInput.hour noonInput.rSolar +
          windGeneration noonInput.rWind)) ∧
      ((generateCurrentData trivialParse trivialFmt sampleState noonInput).currentData.generation.solar =
        round2 (solarGeneration noonInput.hour noonInput.rSolar)) ∧
      ((generateCurrentData trivialParse trivialFmt sampleState noonInput).currentData.generation.wind =
        round2 (windGeneration noonInput.rWind)) ∧
      0 ≤ (generateCurrentData trivialParse trivialFmt sampleState noonInput).currentData.generation.solar ∧
      0 ≤ (generateCurrentData trivialParse trivialFmt sampleState noonInput).currentData.generation.wind ∧
      0 ≤ solarGeneration noonInput.hour noonInput.rSolar ∧
      (¬(6 ≤ noonInput.hour ∧ noonInput.hour ≤ 18) →
        solarGeneration noonInput.hour noonInput.rSolar = 0) ∧
      ((6 ≤ noonInput.hour ∧ noonInput.hour ≤ 18) →
        solarGeneration noonInput.hour noonInput.rSolar ≤ 12) ∧
      3 ≤ windGeneration noonInput.rWind ∧ windGeneration noonInput.rWind < 9) :=
  ⟨⟨le_refl 0, zero_lt_one⟩,
    generation_component_bounds trivialParse trivialFmt sampleState noonInput
      ⟨le_refl 0, zero_lt_one⟩ ⟨le_refl 0, zero_lt_one⟩⟩

/-! ## Historical series shape invariant (claim C6) -/

/-- The three parallel arrays of a series have the same length, bounded by
the period capacity. -/
def seriesBalanced (s : Series) (cap : ℕ) : Prop :=
  s.labels.length = s.generation.length ∧
    s.labels.length = s.consumption.length ∧ s.labels.length ≤ cap

lemma maxPoints_pos (period : String) : 0 < maxPoints period := by
  unfold maxPoints
  split
  · norm_num
  · split <;> norm_num

lemma addDataPoint_balanced (fmt : ℤ → String → String) (s : Series)
    (period : String) (t : ℤ) (g c : ℝ) (h : seriesBalanced s (maxPoints period)) :
    seriesBalanced (addDataPoint fmt s period t g c) (maxPoints period) := by
  obtain ⟨h1, h2, h3⟩ := h
  have hpos := maxPoints_pos period
  unfold addDataPoint seriesBalanced
  by_cases hcap : s.labels.length ≥ maxPoints period
  · rw [if_pos hcap]
    simp only [List.length_append, List.length_tail, List.length_cons,
      List.length_nil]
    omega
  · rw [if_neg hcap]
    simp only [List.length_append, List.length_cons, List.length_nil]
    omega

/-- The whole `historicalData` record is balanced. -/
def historicalBalanced (hd : HistoricalData) : Prop :=
  seriesBalanced hd.h24 48 ∧ seriesBalanced hd.h7 168 ∧ seriesBalanced hd.h30 720

lemma updateHistoricalData_balanced (parse : String → Option ℤ)
    (fmt : ℤ → String → String) (hd : HistoricalData) (t : ℤ) (g c : ℝ)
    (h : historicalBalanced hd) :
    historicalBalanced (updateHistoricalData parse fmt hd t g c) := by
  obtain ⟨h24, h7, h30⟩ := h
  have a24 : seriesBalanced (addDataPoint fmt hd.h24 "24h" t g c) 48 :=
    addDataPoint_balanced fmt hd.h24 "24h" t g c h24
  have a7 : seriesBalanced (addDataPoint fmt hd.h7 "7d" t g c) 168 :=
    addDataPoint_balanced fmt hd.h7 "7d" t g c h7
  have a30 : seriesBalanced (addDataPoint fmt hd.h30 "30d" t g c) 720 :=
    addDataPoint_balanced fmt hd.h30 "30d" t g c h30
  unfold updateHistoricalData
  dsimp only
  split_ifs <;> exact ⟨by assumption, by assumption, by assumption⟩

lemma initializePeriodData_length (hourOf dayOf : ℤ → ℤ)
    (fmt : ℤ → String → String) (e : InitEntropy) (now : ℤ) (period : String)
    (points intervalMinutes : ℕ) :
    (initializePeriodData hourOf dayOf fmt e now period points intervalMinutes).labels.length
        = points ∧
      (initializePeriodData hourOf dayOf fmt e now period points intervalMinutes).generation.length
        = points ∧
      (initializePeriodData hourOf dayOf fmt e now period points intervalMinutes).consumption.length
        = points := by
  unfold initializePeriodData
  refine ⟨?_, ?_, ?_⟩ <;> simp

lemma initialState_balanced (hourOf dayOf : ℤ → ℤ) (fmt0 : ℤ → String → String)
    (e24 e7 e30 : InitEntropy) (now : ℤ) :
    historicalBalanced (initialState hourOf dayOf fmt0 e24 e7 e30 now).historicalData := by
  have i24 := initializePeriodData_length hourOf dayOf fmt0 e24 now "24h" 48 30
  have i7 := initializePeriodData_length hourOf dayOf fmt0 e7 now "7d" 168 60
  have i30 := initializePeriodData_length hourOf dayOf fmt0 e30 now "30d" 720 60
  refine ⟨⟨?_, ?_, ?_⟩, ⟨?_, ?_, ?_⟩, ⟨?_, ?_, ?_⟩⟩ <;>
    simp only [initialState, initializeHistoricalData] <;> omega

/-- C6.  The three parallel arrays of every period series always have
identical length, the length never exceeds the period cap (48 for `24h`,
168 for `7d`, 720 for `30d`) from initialization through any sequence of
snapshot generations, and an append at capacity drops exactly the oldest
point of each array (FIFO, preserving the order of the remaining points)
while an append under capacity keeps all points. -/
theorem historical_series_shape :
    (maxPoints "24h" = 48 ∧ maxPoints "7d" = 168 ∧ maxPoints "30d" = 720) ∧
    (∀ (fmt : ℤ → String → String) (s : Series) (period : String) (t : ℤ) (g c : ℝ),
      seriesBalanced s (maxPoints period) →
      seriesBalanced (addDataPoint fmt s period t g c) (maxPoints period) ∧
      (s.labels.length = maxPoints period →
        addDataPoint fmt s period t g c =
          ⟨s.labels.tail ++ [fmt t period], s.generation.tail ++ [g],
           s.consumption.tail ++ [c]⟩) ∧
      (s.labels.length < maxPoints period →
        addDataPoint fmt s period t g c =
          ⟨s.labels ++ [fmt t period], s.generation ++ [g], s.consumption ++ [c]⟩)) ∧
    (∀ (parse : String → Option ℤ) (fmt : ℤ → String → String) (hourOf dayOf : ℤ → ℤ)
        (fmt0 : ℤ → String → String) (e24 e7 e30 : InitEntropy) (now : ℤ)
        (inps : List GenInput),
      historicalBalanced
        (inps.foldl (generateCurrentData parse fmt)
          (initialState hourOf dayOf fmt0 e24 e7 e30 now)).historicalData) := by
  refine ⟨⟨rfl, rfl, rfl⟩, ?_, ?_⟩
  · intro fmt s period t g c hbal
    refine ⟨addDataPoint_balanced fmt s period t g c hbal, ?_, ?_⟩
    · intro hcap
      unfold addDataPoint
      rw [if_pos (le_of_eq hcap.symm)]
    · intro hlt
      unfold addDataPoint
      rw [if_neg (not_le.2 hlt)]
  · intro parse fmt hourOf dayOf fmt0 e24 e7 e30 now inps
    have main : ∀ (inps : List GenInput) (st : ManagerState),
        historicalBalanced st.historicalData →
        historicalBalanced
          ((inps.foldl (generateCurrentData parse fmt) st)).historicalData := by
      intro inps
      induction inps with
      | nil => intro st h; exact h
      | cons inp rest ih =>
        intro st h
        exact ih _ (updateHistoricalData_balanced parse fmt st.historicalData _ _ _ h)
    exact main inps _ (initialState_balanced hourOf dayOf fmt0 e24 e7 e30 now)

/-- A series already at the 48-point capacity of the `24h` period, used as
a witness. -/
noncomputable def fullSeries48 : Series :=
  ⟨List.replicate 48 "x", List.replicate 48 (0 : ℝ), List.replicate 48 (0 : ℝ)⟩

/-- Witness for C6: appending to a full 48-point `24h` series keeps it
balanced and evicts exactly the oldest point. -/
theorem historical_series_shape_witness :
    seriesBalanced fullSeries48 (maxPoints "24h") ∧
    (seriesBalanced (addDataPoint trivialFmt fullSeries48 "24h" 0 1 2) (maxPoints "24h") ∧
      (fullSeries48.labels.length = maxPoints "24h" →
        addDataPoint trivialFmt fullSeries48 "24h" 0 1 2 =
          ⟨fullSeries48.labels.tail ++ [trivialFmt 0 "24h"],
           fullSeries48.generation.tail ++ [1], fullSeries48.consumption.tail ++ [2]⟩) ∧
      (fullSeries48.labels.length < maxPoints "24h" →
        addDataPoint trivialFmt fullSeries48 "24h" 0 1 2 =
          ⟨fullSeries48.labels ++ [trivialFmt 0 "24h"],
           fullSeries48.generation ++ [1], fullSeries48.consumption ++ [2]⟩)) :=
  ⟨⟨by simp [fullSeries48], by simp [fullSeries48], by simp [fullSeries48, maxPoints]⟩,
    historical_series_shape.2.1 trivialFmt fullSeries48 "24h" 0 1 2
      ⟨by simp [fullSeries48], by simp [fullSeries48], by simp [fullSeries48, maxPoints]⟩⟩

/-! ## Append cadence (claim C1) -/

/-- The per-period cadence threshold of `shouldUpdateData`, in
milliseconds (30 simulated minutes for `24h`, one simulated hour for `7d`
and `30d`). -/
def cadenceMs (period : String) : ℤ :=
  if period = "24h" then 30 * 60 * 1000 else 60 * 60 * 1000

/-- The series stored for a tracked period. -/
def seriesFor (hd : HistoricalData) (period : String) : Series :=
  if period = "24h" then hd.h24 else if period = "7d" then hd.h7 else hd.h30

/-- Characterization of the cadence test: with a nonempty series, a
tracked period is due exactly when the last label parses to a time at
least the cadence threshold before the new timestamp. -/
lemma shouldUpdateData_iff (parse : String → Option ℤ) (s : Series) (t : ℤ)
    (period : String) (hp : period = "24h" ∨ period = "7d" ∨ period = "30d")
    (hne : s.labels ≠ []) :
    shouldUpdateData parse s period t = true ↔
      ∃ lbl p, s.labels.getLast? = some lbl ∧ parse lbl = some p ∧
        cadenceMs period ≤ t - p := by
  unfold shouldUpdateData
  cases hlast : s.labels.getLast? with
  | none => exact absurd (List.getLast?_eq_none_iff.1 hlast) hne
  | some lbl =>
    cases hparse : parse lbl with
    | none => simp [hparse]
    | some p =>
      rcases hp with hp | hp | hp <;> subst hp <;>
        simp [hparse, cadenceMs, decide_eq_true_iff, ge_iff_le]


lemma updateHistoricalData_h24 (parse : String → Option ℤ)
    (fmt : ℤ → String → String) (hd : HistoricalData) (t : ℤ) (g c : ℝ) :
    (updateHistoricalData parse fmt hd t g c).h24 =
      if shouldUpdateData parse hd.h24 "24h" t then
        addDataPoint fmt hd.h24 "24h" t g c else hd.h24 := by
  unfold updateHistoricalData
  dsimp only
  split_ifs <;> rfl

lemma updateHistoricalData_h7 (parse : String → Option ℤ)
    (fmt : ℤ → String → String) (hd : HistoricalData) (t : ℤ) (g c : ℝ) :
    (updateHistoricalData parse fmt hd t g c).h7 =
      if shouldUpdateData parse hd.h7 "7d" t then
        addDataPoint fmt hd.h7 "7d" t g c else hd.h7 := by
  unfold updateHistoricalData
  dsimp only
  split_ifs <;> rfl

lemma updateHistoricalData_h30 (parse : String → Option ℤ)
    (fmt : ℤ → String → String) (hd : HistoricalData) (t : ℤ) (g c : ℝ) :
    (updateHistoricalData parse fmt hd t g c).h30 =
      if shouldUpdateData parse hd.h30 "30d" t then
        addDataPoint fmt hd.h30 "30d" t g c else hd.h30 := by
  unfold updateHistoricalData
  dsimp only
  split_ifs <;> rfl

/-- Per-period form of the three field lemmas. -/
lemma updateHistoricalData_seriesFor (parse : String → Option ℤ)
    (fmt : ℤ → String → String) (hd : HistoricalData) (t : ℤ) (g c : ℝ)
    (period : String) (hp : period = "24h" ∨ period = "7d" ∨ period = "30d") :
    seriesFor (updateHistoricalData parse fmt hd t g c) period =
      if shouldUpdateData parse (seriesFor hd period) period t then
        addDataPoint fmt (seriesFor hd period) period t g c
      else seriesFor hd period := by
  rcases hp with hp | hp | hp <;> subst hp
  · simpa [seriesFor] using updateHistoricalData_h24 parse fmt hd t g c
  · simpa [seriesFor] using updateHistoricalData_h7 parse fmt hd t g c
  · simpa [seriesFor] using updateHistoricalData_h30 parse fmt hd t g c

/-- The historical side effect of `generateCurrentData`, definitional. -/
lemma generateCurrentData_historicalData (parse : String → Option ℤ)
    (fmt : ℤ → String → String) (st : ManagerState) (inp : GenInput) :
    (generateCurrentData parse fmt st inp).historicalData =
      updateHistoricalData parse fmt st.historicalData inp.now
        (round2 (totalGenerationOf inp)) (round2 (totalConsumptionOf st inp)) := rfl

/-- The elapsed-time condition of the cadence check for a period series:
the last stored label parses back to a time at least the cadence threshold
before `t`. -/
def cadenceDue (parse : String → Option ℤ) (s : Series) (period : String)
    (t : ℤ) : Prop :=
  ∃ lbl p, s.labels.getLast? = some lbl ∧ parse lbl = some p ∧
    cadenceMs period ≤ t - p

/-- C1.  For every tracked period with a nonempty series, a snapshot
generation appends a point exactly when the time elapsed since the last
stored point, measured by parsing the last stored label back into a
timestamp and comparing it with the snapshot timestamp, reaches the
period cadence threshold: 30 simulated minutes for `24h`, one simulated
hour for `7d` and `30d`.  Consequently, while the parsed time of the last
stored label stays within one threshold window of the generation times,
repeated generations append nothing further for that period. -/
theorem append_cadence :
    (cadenceMs "24h" = 30 * 60 * 1000 ∧ cadenceMs "7d" = 60 * 60 * 1000 ∧
      cadenceMs "30d" = 60 * 60 * 1000) ∧
    (∀ (parse : String → Option ℤ) (fmt : ℤ → String → String)
        (st : ManagerState) (inp : GenInput) (period : String),
      period = "24h" ∨ period = "7d" ∨ period = "30d" →
      (seriesFor st.historicalData period).labels ≠ [] →
      (cadenceDue parse (seriesFor st.historicalData period) period inp.now →
        seriesFor (generateCurrentData parse fmt st inp).historicalData period =
          addDataPoint fmt (seriesFor st.historicalData period) period inp.now
            (round2 (totalGenerationOf inp)) (round2 (totalConsumptionOf st inp))) ∧
      (¬ cadenceDue parse (seriesFor st.historicalData period) period inp.now →
        seriesFor (generateCurrentData parse fmt st inp).historicalData period =
          seriesFor st.historicalData period)) ∧
    (∀ (parse : String → Option ℤ) (fmt : ℤ → String → String)
        (st : ManagerState) (inp inp2 : GenInput) (period : String)
        (lbl : String) (q : ℤ),
      period = "24h" ∨ period = "7d" ∨ period = "30d" →
      (seriesFor (generateCurrentData parse fmt st inp).historicalData period).labels.getLast?
        = some lbl →
      parse lbl = some q →
      inp2.now - q < cadenceMs period →
      seriesFor (generateCurrentData parse fmt
          (generateCurrentData parse fmt st inp) inp2).historicalData period =
        seriesFor (generateCurrentData parse fmt st inp).historicalData period) := by
  have hstep : ∀ (parse : String → Option ℤ) (fmt : ℤ → String → String)
      (st : ManagerState) (inp : GenInput) (period : String),
      period = "24h" ∨ period = "7d" ∨ period = "30d" →
      (seriesFor st.historicalData period).labels ≠ [] →
      (cadenceDue parse (seriesFor st.historicalData period) period inp.now →
        seriesFor (generateCurrentData parse fmt st inp).historicalData period =
          addDataPoint fmt (seriesFor st.historicalData period) period inp.now
            (round2 (totalGenerationOf inp)) (round2 (totalConsumptionOf st inp))) ∧
      (¬ cadenceDue parse (seriesFor st.historicalData period) period inp.now →
        seriesFor (generateCurrentData parse fmt st inp).historicalData period =
          seriesFor st.historicalData period) := by
    intro parse fmt st inp period hp hne
    have hupd := updateHistoricalData_seriesFor parse fmt st.historicalData inp.now
      (round2 (totalGenerationOf inp)) (round2 (totalConsumptionOf st inp)) period hp
    have hiff := shouldUpdateData_iff parse (seriesFor st.historicalData period)
      inp.now period hp hne
    rw [generateCurrentData_historicalData, hupd]
    constructor
    · intro hdue
      rw [if_pos (hiff.2 hdue)]
    · intro hnot
      rw [if_neg (fun hb => hnot (hiff.1 hb))]
  refine ⟨⟨rfl, rfl, rfl⟩, hstep, ?_⟩
  intro parse fmt st inp inp2 period lbl q hp hlast hparse hlt
  have hne : (seriesFor (generateCurrentData parse fmt st inp).historicalData period).labels ≠ [] := by
    intro hempty
    rw [List.getLast?_eq_none_iff.2 hempty] at hlast
    cases hlast
  have hnot : ¬ cadenceDue parse
      (seriesFor (generateCurrentData parse fmt st inp).historicalData period) period inp2.now := by
    rintro ⟨lbl', q', hlast', hparse', hge⟩
    rw [hlast] at hlast'
    cases hlast'
    rw [hparse] at hparse'
    cases hparse'
    omega
  exact (hstep parse fmt (generateCurrentData parse fmt st inp) inp2 period hp hne).2 hnot

/-- A one-point `24h` series whose label is parseable, for the C1 witness. -/
noncomputable def seriesC1 : Series := ⟨["L"], [0], [0]⟩

/-- A label parser that understands exactly the witness label. -/
def parseC1 : String → Option ℤ := fun s => if s = "L" then some 0 else none

/-- The witness state: the sample state with the one-point `24h` series. -/
noncomputable def stateC1 : ManagerState :=
  { sampleState with historicalData := ⟨seriesC1, ⟨[], [], []⟩, ⟨[], [], []⟩⟩ }

/-- An input exactly 30 simulated minutes after the stored label. -/
noncomputable def inputC1 : GenInput := ⟨30 * 60 * 1000, 0, 0, 0, 0, 0, fun _ _ => 0⟩

/-- Witness for C1: thirty minutes after the last stored `24h` point the
generation appends exactly one point to the `24h` series. -/
theorem append_cadence_witness :
    ("24h" = "24h" ∨ "24h" = "7d" ∨ "24h" = "30d") ∧
    (seriesFor stateC1.historicalData "24h").labels ≠ [] ∧
    cadenceDue parseC1 (seriesFor stateC1.historicalData "24h") "24h" inputC1.now ∧
    seriesFor (generateCurrentData parseC1 trivialFmt stateC1 inputC1).historicalData "24h" =
      addDataPoint trivialFmt (seriesFor stateC1.historicalData "24h") "24h" inputC1.now
        (round2 (totalGenerationOf inputC1)) (round2 (totalConsumptionOf stateC1 inputC1)) :=
  ⟨Or.inl rfl, by simp [seriesFor, stateC1, seriesC1],
    ⟨"L", 0, rfl, rfl, by norm_num [cadenceMs, inputC1]⟩,
    (append_cadence.2.1 parseC1 trivialFmt stateC1 inputC1 "24h" (Or.inl rfl)
        (by simp [seriesFor, stateC1, seriesC1])).1
      ⟨"L", 0, rfl, rfl, by norm_num [cadenceMs, inputC1]⟩⟩

/-! ## Alert deduplication (claim C2) -/

/-- A dismissed alert carrying the critical battery title, used to show
that the dedup check of `checkAlerts` does not look at the dismissed flag. -/
def dismissedCBL : Alert :=
  ⟨1, "critical", "Critical Battery Level", "m", 0, true⟩

/-- Counterexample to C2 as stated: the alert list holds only a DISMISSED
`Critical Battery Level` alert from the same instant, so no non-dismissed
alert with that title exists, yet the newly triggered critical alert is
still suppressed: the list is returned unchanged instead of gaining the
new alert. -/
theorem checkAlerts_dismissed_also_suppresses :
    (¬ ∃ a ∈ [dismissedCBL], a.dismissed = false ∧ a.title = "Critical Battery Level") ∧
    (15 : ℤ) < 20 ∧
    checkAlerts [dismissedCBL] 15 0 0 = [dismissedCBL] := by
  refine ⟨by decide, by decide, ?_⟩
  rfl

/-- The number of non-dismissed `Critical Battery Level` alerts. -/
def countCriticalBattery (l : List Alert) : ℕ :=
  (l.filter fun a =>
    decide (a.title = "Critical Battery Level" ∧ a.dismissed = false)).length

lemma alertCandidates_critical (p l now : ℤ) (hp : p < 20) (hl : l ≤ 80) :
    alertCandidates p l now = [criticalBatteryAlert now p] := by
  unfold alertCandidates
  rw [if_pos hp, if_neg (by omega)]
  rfl

lemma insertIfNew_characterization (A : List Alert) (c : Alert) :
    insertIfNew A c =
      if ∃ a ∈ A, a.title = c.title ∧ |a.timestamp - c.timestamp| < 5 * 60 * 1000
      then A else c :: A := by
  unfold insertIfNew
  by_cases hex : ∃ a ∈ A, a.title = c.title ∧ |a.timestamp - c.timestamp| < 5 * 60 * 1000
  · rw [if_pos hex]
    rcases hex with ⟨a, ha, hprop⟩
    rw [if_pos (List.any_eq_true.2 ⟨a, ha, decide_eq_true hprop⟩)]
  · rw [if_neg hex]
    rw [if_neg fun hany => hex ?_]
    rcases List.any_eq_true.1 hany with ⟨a, ha, hdec⟩
    exact ⟨a, ha, of_decide_eq_true hdec⟩

/-- The battery-critical behaviour of one `checkAlerts` run: with a
critical percentage and a calm grid, the new alert is inserted at the
front exactly when no alert with the same title lies within the 5 minute
window, dismissed or not. -/
lemma checkAlerts_critical (A : List Alert) (p l now : ℤ) (hp : p < 20)
    (hl : l ≤ 80) :
    checkAlerts A p l now =
      (if ∃ a ∈ A, a.title = "Critical Battery Level" ∧
          |a.timestamp - now| < 5 * 60 * 1000
       then A else criticalBatteryAlert now p :: A).take 50 := by
  unfold checkAlerts
  rw [alertCandidates_critical p l now hp hl]
  show (insertIfNew A (criticalBatteryAlert now p)).take 50 = _
  rw [insertIfNew_characterization]
  rfl

lemma countCriticalBattery_eq_zero (A : List Alert)
    (h : ∀ a ∈ A, a.title ≠ "Critical Battery Level") :
    countCriticalBattery A = 0 := by
  unfold countCriticalBattery
  rw [List.filter_eq_nil_iff.2 fun a ha => ?_]
  · rfl
  · simp only [decide_eq_true_eq, not_and]
    intro hti
    exact absurd hti (h a ha)

/-- C2 (amended).  The dedup test of `checkAlerts` compares only the title
and the 5-minute timestamp window of the existing alerts, whether or not
they are dismissed: with a critical battery percentage and a calm grid,
the new `Critical Battery Level` alert is suppressed exactly when any
stored alert with that title lies within 5 minutes.  Consequently two
snapshot generations within 5 minutes that both trigger the condition,
starting from a list with no alert of that title, leave exactly one
non-dismissed `Critical Battery Level` alert. -/
theorem checkAlerts_dedup :
    (∀ (A : List Alert) (p l now : ℤ), p < 20 → l ≤ 80 →
      checkAlerts A p l now =
        (if ∃ a ∈ A, a.title = "Critical Battery Level" ∧
            |a.timestamp - now| < 5 * 60 * 1000
         then A else criticalBatteryAlert now p :: A).take 50) ∧
    (∀ (A : List Alert) (p1 p2 l1 l2 t1 t2 : ℤ),
      (∀ a ∈ A, a.title ≠ "Critical Battery Level") →
      p1 < 20 → p2 < 20 → l1 ≤ 80 → l2 ≤ 80 → |t2 - t1| < 5 * 60 * 1000 →
      countCriticalBattery (checkAlerts (checkAlerts A p1 l1 t1) p2 l2 t2) = 1) := by
  refine ⟨checkAlerts_critical, ?_⟩
  intro A p1 p2 l1 l2 t1 t2 hA hp1 hp2 hl1 hl2 hw
  have hrun1 : checkAlerts A p1 l1 t1 = criticalBatteryAlert t1 p1 :: A.take 49 := by
    rw [checkAlerts_critical A p1 l1 t1 hp1 hl1,
      if_neg (fun hex => ?_), List.take_succ_cons]
    rcases hex with ⟨a, ha, hti, _⟩
    exact absurd hti (hA a ha)
  have hlen1 : (checkAlerts A p1 l1 t1).length ≤ 50 := by
    rw [hrun1]
    have := List.length_take_le 49 A
    simp only [List.length_cons]
    omega
  have hrun2 : checkAlerts (checkAlerts A p1 l1 t1) p2 l2 t2 = checkAlerts A p1 l1 t1 := by
    rw [checkAlerts_critical _ p2 l2 t2 hp2 hl2, if_pos ?_,
      List.take_of_length_le hlen1]
    refine ⟨criticalBatteryAlert t1 p1, ?_, rfl, ?_⟩
    · rw [hrun1]; exact List.mem_cons_self _ _
    · show |t1 - t2| < 5 * 60 * 1000
      rw [abs_sub_comm]
      exact hw
  rw [hrun2, hrun1]
  unfold countCriticalBattery
  have hfil : (List.take 49 A).filter
      (fun a => decide (a.title = "Critical Battery Level" ∧ a.dismissed = false)) = [] := by
    refine List.filter_eq_nil_iff.2 fun a ha => ?_
    simp only [decide_eq_true_eq, not_and]
    intro hti
    exact absurd hti (hA a (List.take_subset 49 A ha))
  have hcons : List.filter
      (fun a => decide (a.title = "Critical Battery Level" ∧ a.dismissed = false))
      (criticalBatteryAlert t1 p1 :: List.take 49 A) =
      criticalBatteryAlert t1 p1 :: List.filter
        (fun a => decide (a.title = "Critical Battery Level" ∧ a.dismissed = false))
        (List.take 49 A) :=
    List.filter_cons_of_pos (decide_eq_true ⟨rfl, rfl⟩)
  rw [hcons, hfil]
  rfl

/-- Witness for C2: from an empty alert list two critical triggers one
second apart leave exactly one non-dismissed `Critical Battery Level`
alert. -/
theorem checkAlerts_dedup_witness :
    (∀ a ∈ ([] : List Alert), a.title ≠ "Critical Battery Level") ∧
    (10 : ℤ) < 20 ∧ (0 : ℤ) ≤ 80 ∧ |(1000 : ℤ) - 0| < 5 * 60 * 1000 ∧
    countCriticalBattery (checkAlerts (checkAlerts [] 10 0 0) 10 0 1000) = 1 :=
  ⟨by decide, by decide, by decide, by decide,
    checkAlerts_dedup.2 [] 10 10 0 0 0 1000 (by decide) (by decide) (by decide)
      (by decide) (by decide) (by decide)⟩

/-! ## Report statistics hazards (claim C3) -/

/-- A reachable series shape with positive generation and zero
consumption (every device toggled off, then appended). -/
noncomputable def hazardSeries : Series := ⟨["a"], [1], [0]⟩

/-- The sample state carrying the hazard series as its `24h` series. -/
noncomputable def hazardState : ManagerState :=
  { sampleState with historicalData := ⟨hazardSeries, ⟨[], [], []⟩, ⟨[], [], []⟩⟩ }

lemma jsAvg_single_one : jsAvg [(1 : ℝ)] = JSVal.num 1 := by
  unfold jsAvg jsSum jsDiv
  norm_num

lemma jsAvg_single_zero : jsAvg [(0 : ℝ)] = JSVal.num 0 := by
  unfold jsAvg jsSum jsDiv
  norm_num

lemma jsAvg_nil : jsAvg ([] : List ℝ) = JSVal.nan := by
  unfold jsAvg jsSum jsDiv
  norm_num

/-- C3.  The stated policy (zero-denominator efficiency reported as 0,
empty-series statistics failing explicitly or 0) is violated by the code,
which is the bug: `getReportData` does not guard the efficiency
denominator (it guards the numerator), so average consumption 0 with
positive average generation yields `Infinity`, not 0; and on an empty
series the averages are `NaN` and the peaks `-Infinity` rather than an
explicit failure or 0. -/
theorem getReportData_division_hazards :
    getReportData hazardState "24h" =
      some (hazardSeries, reportStatistics [1] [0]) ∧
    jsAvg [(0 : ℝ)] = JSVal.num 0 ∧
    (reportStatistics [1] [0]).efficiency = JSVal.inf ∧
    (reportStatistics [1] [0]).efficiency ≠ JSVal.num 0 ∧
    (reportStatistics [] []).avgGeneration = JSVal.nan ∧
    (reportStatistics [] []).peakGeneration = JSVal.ninf := by
  have heff : (reportStatistics [1] [0]).efficiency = JSVal.inf := by
    have hgt : jsGtZero (JSVal.num 1) = true := decide_eq_true zero_lt_one
    have hdiv : jsDivV (JSVal.num 1) (JSVal.num 0) = JSVal.inf := by
      unfold jsDivV jsDiv
      norm_num
    unfold reportStatistics
    rw [jsAvg_single_one, jsAvg_single_zero]
    dsimp only
    rw [hgt, hdiv]
    rfl
  refine ⟨rfl, jsAvg_single_zero, heff, ?_, ?_, rfl⟩
  · rw [heff]
    intro h
    cases h
  · show jsRound2V (jsAvg []) = JSVal.nan
    rw [jsAvg_nil]
    rfl

/-! ## Battery health and grid status derivation (claims C4, C5) -/

/-- C4 (amended).  `battery.health` is derived from the unrounded working
battery percentage, of which the stored `battery.percentage` is the
rounding: `Critical` iff the working percentage is below 10, `Warning` iff
it is in `[10, 30)`, `Good` iff it is at least 30.  (Because of the
rounding, the stored integer percentage can disagree with the threshold
test that produced the health value.) -/
theorem battery_health_thresholds (parse : String → Option ℤ)
    (fmt : ℤ → String → String) (st : ManagerState) (inp : GenInput) :
    ((generateCurrentData parse fmt st inp).currentData.battery.health = "Critical" ↔
      batteryRawOf st inp < 10) ∧
    ((generateCurrentData parse fmt st inp).currentData.battery.health = "Warning" ↔
      10 ≤ batteryRawOf st inp ∧ batteryRawOf st inp < 30) ∧
    ((generateCurrentData parse fmt st inp).currentData.battery.health = "Good" ↔
      30 ≤ batteryRawOf st inp) ∧
    (generateCurrentData parse fmt st inp).currentData.battery.percentage =
      round (batteryRawOf st inp) := by
  have hts : (generateCurrentData parse fmt st inp).currentData.battery.health =
      batteryHealthOf st inp := rfl
  rw [hts]
  unfold batteryHealthOf
  split_ifs with h1 h2
  · exact ⟨iff_of_true rfl h1,
      iff_of_false (by decide) (fun hc => by linarith [hc.1]),
      iff_of_false (by decide) (fun hc => by linarith), rfl⟩
  · exact ⟨iff_of_false (by decide) h1,
      iff_of_true rfl ⟨le_of_not_lt h1, h2⟩,
      iff_of_false (by decide) (fun hc => by linarith), rfl⟩
  · exact ⟨iff_of_false (by decide) h1,
      iff_of_false (by decide) (fun hc => absurd hc.2 h2),
      iff_of_true rfl (le_of_not_lt h2), rfl⟩

/-- C5 (amended).  `grid.status` is `ON` exactly when the unrounded
working battery percentage is below the configured
`batteryDischargeLimit`, or total consumption exceeds total generation by
more than the fixed 2 kW margin; otherwise it is `OFF` and the stored
`grid.load` is 0.  (As with C4, the decision uses the unrounded working
percentage, not the stored rounded one.) -/
theorem grid_status_condition (parse : String → Option ℤ)
    (fmt : ℤ → String → String) (st : ManagerState) (inp : GenInput) :
    ((generateCurrentData parse fmt st inp).currentData.grid.status = "ON" ↔
      batteryRawOf st inp < st.controlsData.energyLimits.batteryDischargeLimit ∨
        totalConsumptionOf st inp > totalGenerationOf inp + 2) ∧
    ((generateCurrentData parse fmt st inp).currentData.grid.status = "OFF" ↔
      ¬(batteryRawOf st inp < st.controlsData.energyLimits.batteryDischargeLimit ∨
        totalConsumptionOf st inp > totalGenerationOf inp + 2)) ∧
    ((generateCurrentData parse fmt st inp).currentData.grid.status = "OFF" →
      (generateCurrentData parse fmt st inp).currentData.grid.load = 0) := by
  have hsf : (generateCurrentData parse fmt st inp).currentData.grid.status =
      gridStatusOf st inp := rfl
  have hlf : (generateCurrentData parse fmt st inp).currentData.grid.load =
      round (gridLoadOf st inp) := rfl
  by_cases h : batteryRawOf st inp < st.controlsData.energyLimits.batteryDischargeLimit ∨
      totalConsumptionOf st inp > totalGenerationOf inp + 2
  · have hgs : gridStatusOf st inp = "ON" := by
      unfold gridStatusOf
      rw [if_pos h]
    rw [hsf, hgs]
    exact ⟨iff_of_true rfl h, iff_of_false (by decide) (fun hc => hc h),
      fun hc => absurd hc (by decide)⟩
  · have hgs : gridStatusOf st inp = "OFF" := by
      unfold gridStatusOf
      rw [if_neg h]
    have hl0 : gridLoadOf st inp = 0 := by
      unfold gridLoadOf
      rw [hgs, if_neg (by decide)]
    rw [hsf, hgs]
    refine ⟨iff_of_false (by decide) h, iff_of_true rfl h, fun _ => ?_⟩
    rw [hlf, hl0]
    exact round_zero

/-! ## Concrete evaluation helpers for the C4 and C5 counterexamples -/

lemma round_eval (x : ℝ) (n : ℤ) (h1 : (n : ℝ) ≤ x + 1 / 2) (h2 : x + 1 / 2 < n + 1) :
    round x = n := by
  rw [round_eq]
  exact Int.floor_eq_iff.2 ⟨h1, h2⟩

lemma round2_eval (x : ℝ) (n : ℤ) (h : x * 100 = (n : ℝ)) : round2 x = (n : ℝ) / 100 := by
  unfold round2
  rw [h, round_intCast]

lemma round2_zero : round2 (0 : ℝ) = 0 := by
  rw [round2_eval 0 0 (by norm_num)]
  norm_num

lemma round2_six : round2 (6 : ℝ) = 6 := by
  rw [round2_eval 6 600 (by norm_num)]
  norm_num

/-- A midnight input with all random draws 0. -/
noncomputable def midnightInput : GenInput := ⟨0, 0, 0, 0, 0, 0, fun _ _ => 0⟩

/-- The seeded households with every device toggled off except the
electric vehicle of house 2 (a state reachable by `toggleDevice` calls). -/
noncomputable def housesC4 : List Household :=
  [⟨"house1", "House 1", "Active", 0,
    [⟨"HVAC", 0, "off", "high"⟩,
     ⟨"Water Heater", 0, "off", "medium"⟩,
     ⟨"Refrigerator", 0.8, "off", "high"⟩,
     ⟨"Lighting", 0, "off", "low"⟩]⟩,
   ⟨"house2", "House 2", "Active", 0,
    [⟨"HVAC", 0, "off", "high"⟩,
     ⟨"Electric Vehicle", 0, "on", "low"⟩,
     ⟨"Washer/Dryer", 0, "off", "low"⟩,
     ⟨"Kitchen Appliances", 0, "off", "medium"⟩]⟩,
   ⟨"house3", "House 3", "Active", 0,
    [⟨"Heat Pump", 0, "off", "high"⟩,
     ⟨"Pool Pump", 0, "off", "low"⟩,
     ⟨"Electronics", 0, "off", "medium"⟩,
     ⟨"Outdoor Lighting", 0, "off", "low"⟩]⟩]

/-- A state with stored battery percentage 10 and the `housesC4`
households. -/
noncomputable def stateC4 : ManagerState :=
  { sampleState with
    households := housesC4
    currentData := { initialSnapshot 0 with battery := ⟨10, "Warning", 0, 0⟩ } }

lemma totalConsumption_stateC4 : totalConsumptionOf stateC4 midnightInput = 6 := by
  unfold totalConsumptionOf updatedHouseholds getTotalHouseholdConsumption
  simp [stateC4, sampleState, housesC4, midnightInput,
    updateHouseholdConsumption, updateDevices, devicePower, sumPower,
    round2_zero, round2_six]

lemma totalGeneration_midnight : totalGenerationOf midnightInput = 3 := by
  unfold totalGenerationOf solarGeneration windGeneration
  norm_num [midnightInput]

lemma batteryRaw_stateC4 : batteryRawOf stateC4 midnightInput = 9.7 := by
  have hnet : netEnergyOf stateC4 midnightInput = -3 := by
    unfold netEnergyOf
    rw [totalGeneration_midnight, totalConsumption_stateC4]
    norm_num
  unfold batteryRawOf
  rw [hnet]
  norm_num [stateC4, sampleState, initialSnapshot, max_def]

/-- Counterexample to C4 as stated: a snapshot whose working battery
percentage is 9.7 gets health `Critical` (9.7 < 10) while the STORED
percentage rounds up to 10, so `health = Critical` does not hold iff
`stored percentage < 10`. -/
theorem battery_health_stored_mismatch :
    (generateCurrentData trivialParse trivialFmt stateC4 midnightInput).currentData.battery.health
      = "Critical" ∧
    (generateCurrentData trivialParse trivialFmt stateC4 midnightInput).currentData.battery.percentage
      = 10 ∧
    ¬((generateCurrentData trivialParse trivialFmt stateC4 midnightInput).currentData.battery.percentage
      < 10) := by
  have hhealth : batteryHealthOf stateC4 midnightInput = "Critical" := by
    unfold batteryHealthOf
    rw [batteryRaw_stateC4]
    norm_num
  have hperc : round (batteryRawOf stateC4 midnightInput) = 10 := by
    rw [batteryRaw_stateC4]
    exact round_eval _ 10 (by norm_num) (by norm_num)
  exact ⟨hhealth, hperc, by rw [show (generateCurrentData trivialParse trivialFmt
    stateC4 midnightInput).currentData.battery.percentage =
      round (batteryRawOf stateC4 midnightInput) from rfl, hperc]; omega⟩

lemma round2_three : round2 (3 : ℝ) = 3 := by
  rw [round2_eval 3 300 (by norm_num)]
  norm_num

lemma round2_five : round2 (5 : ℝ) = 5 := by
  rw [round2_eval 5 500 (by norm_num)]
  norm_num

lemma round2_five_halves : round2 (5 / 2 : ℝ) = 5 / 2 := by
  rw [round2_eval (5 / 2) 250 (by norm_num)]
  norm_num

/-- A midnight input whose device draws are all 3/4. -/
noncomputable def inputC5 : GenInput := ⟨0, 0, 0, 0, 0, 0, fun _ _ => (3 : ℝ) / 4⟩

/-- The seeded households with exactly four always-default devices on
(washer/dryer, kitchen appliances, electronics, outdoor lighting), each a
state reachable by `toggleDevice` calls. -/
noncomputable def housesC5 : List Household :=
  [⟨"house1", "House 1", "Active", 0,
    [⟨"HVAC", 0, "off", "high"⟩,
     ⟨"Water Heater", 0, "off", "medium"⟩,
     ⟨"Refrigerator", 0.8, "off", "high"⟩,
     ⟨"Lighting", 0, "off", "low"⟩]⟩,
   ⟨"house2", "House 2", "Active", 0,
    [⟨"HVAC", 0, "off", "high"⟩,
     ⟨"Electric Vehicle", 0, "off", "low"⟩,
     ⟨"Washer/Dryer", 0, "on", "low"⟩,
     ⟨"Kitchen Appliances", 0, "on", "medium"⟩]⟩,
   ⟨"house3", "House 3", "Active", 0,
    [⟨"Heat Pump", 0, "off", "high"⟩,
     ⟨"Pool Pump", 0, "off", "low"⟩,
     ⟨"Electronics", 0, "on", "medium"⟩,
     ⟨"Outdoor Lighting", 0, "on", "low"⟩]⟩]

/-- A state with stored battery percentage 20 (the configured discharge
limit) and the `housesC5` households. -/
noncomputable def stateC5 : ManagerState :=
  { sampleState with
    households := housesC5
    currentData := { initialSnapshot 0 with battery := ⟨20, "Warning", 0, 0⟩ } }

lemma totalConsumption_stateC5 : totalConsumptionOf stateC5 inputC5 = 5 := by
  unfold totalConsumptionOf updatedHouseholds getTotalHouseholdConsumption
  simp [stateC5, sampleState, housesC5, inputC5,
    updateHouseholdConsumption, updateDevices, devicePower, sumPower, round2_zero]
  norm_num [round2_five_halves]

lemma totalGeneration_inputC5 : totalGenerationOf inputC5 = 3 := by
  unfold totalGenerationOf solarGeneration windGeneration
  norm_num [inputC5]

lemma batteryRaw_stateC5 : batteryRawOf stateC5 inputC5 = 19.8 := by
  have hnet : netEnergyOf stateC5 inputC5 = -2 := by
    unfold netEnergyOf
    rw [totalGeneration_inputC5, totalConsumption_stateC5]
    norm_num
  unfold batteryRawOf
  rw [hnet]
  norm_num [stateC5, sampleState, initialSnapshot, max_def]

/-- Counterexample to C5 as stated: a snapshot whose working battery
percentage is 19.8 turns the grid ON (19.8 < limit 20), while the STORED
percentage rounds up to 20 and consumption (5) does not exceed generation
(3) by more than 2, so the stored snapshot violates the claimed
biconditional. -/
theorem grid_status_stored_mismatch :
    (generateCurrentData trivialParse trivialFmt stateC5 inputC5).currentData.grid.status
      = "ON" ∧
    (generateCurrentData trivialParse trivialFmt stateC5 inputC5).currentData.battery.percentage
      = 20 ∧
    stateC5.controlsData.energyLimits.batteryDischargeLimit = 20 ∧
    (generateCurrentData trivialParse trivialFmt stateC5 inputC5).currentData.consumption.total
      = 5 ∧
    (generateCurrentData trivialParse trivialFmt stateC5 inputC5).currentData.generation.total
      = 3 ∧
    ¬(((generateCurrentData trivialParse trivialFmt stateC5 inputC5).currentData.battery.percentage : ℝ)
        < stateC5.controlsData.energyLimits.batteryDischargeLimit ∨
      (generateCurrentData trivialParse trivialFmt stateC5 inputC5).currentData.consumption.total
        > (generateCurrentData trivialParse trivialFmt stateC5 inputC5).currentData.generation.total
          + 2) := by
  have hlim : stateC5.controlsData.energyLimits.batteryDischargeLimit = 20 := rfl
  have hstatus : gridStatusOf stateC5 inputC5 = "ON" := by
    unfold gridStatusOf
    rw [if_pos]
    left
    rw [batteryRaw_stateC5, hlim]
    norm_num
  have hperc : round (batteryRawOf stateC5 inputC5) = 20 := by
    rw [batteryRaw_stateC5]
    exact round_eval _ 20 (by norm_num) (by norm_num)
  have hct : (generateCurrentData trivialParse trivialFmt stateC5 inputC5).currentData.consumption.total
      = 5 := by
    show round2 (totalConsumptionOf stateC5 inputC5) = 5
    rw [totalConsumption_stateC5, round2_five]
  have hgt : (generateCurrentData trivialParse trivialFmt stateC5 inputC5).currentData.generation.total
      = 3 := by
    show round2 (totalGenerationOf inputC5) = 3
    rw [totalGeneration_inputC5, round2_three]
  refine ⟨hstatus, hperc, hlim, hct, hgt, ?_⟩
  rw [show (generateCurrentData trivialParse trivialFmt stateC5 inputC5).currentData.battery.percentage
      = round (batteryRawOf stateC5 inputC5) from rfl, hperc, hlim, hct, hgt]
  push_neg
  norm_num

/-- Witness for C4 (amended): the health thresholds evaluated on the
concrete 9.7-percent snapshot. -/
theorem battery_health_thresholds_witness :
    ((generateCurrentData trivialParse trivialFmt stateC4 midnightInput).currentData.battery.health
        = "Critical" ↔ batteryRawOf stateC4 midnightInput < 10) ∧
    ((generateCurrentData trivialParse trivialFmt stateC4 midnightInput).currentData.battery.health
        = "Warning" ↔
      10 ≤ batteryRawOf stateC4 midnightInput ∧ batteryRawOf stateC4 midnightInput < 30) ∧
    ((generateCurrentData trivialParse trivialFmt stateC4 midnightInput).currentData.battery.health
        = "Good" ↔ 30 ≤ batteryRawOf stateC4 midnightInput) ∧
    (generateCurrentData trivialParse trivialFmt stateC4 midnightInput).currentData.battery.percentage
      = round (batteryRawOf stateC4 midnightInput) :=
  battery_health_thresholds trivialParse trivialFmt stateC4 midnightInput

/-- Witness for C5 (amended): the grid condition evaluated on the concrete
19.8-percent snapshot. -/
theorem grid_status_condition_witness :
    ((generateCurrentData trivialParse trivialFmt stateC5 inputC5).currentData.grid.status = "ON" ↔
      batteryRawOf stateC5 inputC5 < stateC5.controlsData.energyLimits.batteryDischargeLimit ∨
        totalConsumptionOf stateC5 inputC5 > totalGenerationOf inputC5 + 2) ∧
    ((generateCurrentData trivialParse trivialFmt stateC5 inputC5).currentData.grid.status = "OFF" ↔
      ¬(batteryRawOf stateC5 inputC5 < stateC5.controlsData.energyLimits.batteryDischargeLimit ∨
        totalConsumptionOf stateC5 inputC5 > totalGenerationOf inputC5 + 2)) ∧
    ((generateCurrentData trivialParse trivialFmt stateC5 inputC5).currentData.grid.status = "OFF" →
      (generateCurrentData trivialParse trivialFmt stateC5 inputC5).currentData.grid.load = 0) :=
  grid_status_condition trivialParse trivialFmt stateC5 inputC5

end WattsApp
